import Mathlib

set_option maxRecDepth 100000

/-!  Verification development for the static source-defect detector.

The repository ships the fixture corpus (semantic_bugs.c, semantic_bugs.cpp,
network_utils.cpp, bst_template.cpp) as test inputs; the analyzer itself
(tokenizer, resilient parser, rule engine, aggregator) is specified in the
design document.  The analyzer components below are modelled from the spec;
the fixture texts are embedded verbatim from the repository.  -/

/-! ## Tokens -/

/-- Token kinds, from the spec data model: Identifier, Keyword, Operator,
Punctuation, StringLiteral, NumberLiteral, Invalid, EndOfFile. -/
inductive TkKind where
  | identifier | keyword | op | punct | strLit | numLit | invalid | eof
deriving DecidableEq, Repr

/-- Modelled from the spec: a lexical token `{kind, text, line, column}`. -/
structure Token where
  kind : TkKind
  text : String
  line : Nat
  col : Nat
deriving DecidableEq, Repr

/-- Kinds a scanner step may emit: every token kind except EndOfFile, which
only the end of the input produces. -/
inductive PKind where
  | identifier | keyword | op | punct | strLit | numLit | invalid
deriving DecidableEq, Repr

def PKind.toTk : PKind → TkKind
  | .identifier => .identifier
  | .keyword => .keyword
  | .op => .op
  | .punct => .punct
  | .strLit => .strLit
  | .numLit => .numLit
  | .invalid => .invalid

/-- A token as produced mid-scan (never EndOfFile). -/
structure PTok where
  kind : PKind
  text : String
  line : Nat
  col : Nat
deriving DecidableEq, Repr

def PTok.toToken (t : PTok) : Token := ⟨t.kind.toTk, t.text, t.line, t.col⟩

/-! ## Tokenizer, modelled from spec section 4.1: total, never fails,
malformed input becomes Invalid tokens, comments and whitespace are consumed
but advance line and column counters. -/

def cppKeywords : List String :=
  ["int", "void", "char", "bool", "float", "double", "long", "short",
   "unsigned", "signed", "const", "static", "struct", "class", "namespace",
   "template", "typename", "if", "else", "for", "while", "do", "switch",
   "case", "return", "break", "continue", "new", "delete", "using",
   "public", "private", "protected", "virtual", "explicit", "auto",
   "sizeof", "nullptr", "true", "false"]

def openBraceC : Char := Char.ofNat 123
def closeBraceC : Char := Char.ofNat 125
def quoteC : Char := Char.ofNat 34
def squoteC : Char := Char.ofNat 39
def backslashC : Char := Char.ofNat 92

def isIdentStartC (c : Char) : Bool := c.isAlpha || c = '_'
def isIdentC (c : Char) : Bool := c.isAlphanum || c = '_'
def isPunctC (c : Char) : Bool :=
  c = '(' || c = ')' || c = openBraceC || c = closeBraceC ||
  c = '[' || c = ']' || c = ';' || c = ','
def isOpC (c : Char) : Bool :=
  c = '+' || c = '-' || c = '*' || c = '%' || c = '<' || c = '>' ||
  c = '=' || c = '!' || c = '&' || c = '|' || c = '^' || c = '~' ||
  c = ':' || c = '.' || c = '?'

def isTwoCharOp (a b : Char) : Bool :=
  (a = '<' && b = '<') || (a = '>' && b = '>') || (a = ':' && b = ':') ||
  (a = '-' && b = '>') || (a = '=' && b = '=') || (a = '!' && b = '=') ||
  (a = '<' && b = '=') || (a = '>' && b = '=') || (a = '&' && b = '&') ||
  (a = '|' && b = '|') || (a = '+' && b = '+') || (a = '-' && b = '-') ||
  (a = '+' && b = '=') || (a = '-' && b = '=') || (a = '*' && b = '=')

/-- Scanner mode: what multi-character construct is currently open.
Accumulators hold the characters of the construct in reverse order. -/
inductive Mode where
  | normal
  | lineComment
  | directive
  | blockComment (star : Bool)
  | inStr (acc : List Char) (line col : Nat) (esc : Bool)
  | inChar (acc : List Char) (line col : Nat) (esc : Bool)
  | inIdent (acc : List Char) (line col : Nat)
  | inNum (acc : List Char) (line col : Nat)
  | opPend (c : Char) (line col : Nat)
  | slash (line col : Nat)
deriving Repr

def finishWord (acc : List Char) (l c : Nat) : PTok :=
  let s := String.mk acc.reverse
  if cppKeywords.contains s then ⟨.keyword, s, l, c⟩ else ⟨.identifier, s, l, c⟩

/-- One scanner step from the idle mode. -/
def stepNormal (ch : Char) (l c : Nat) : List PTok × Mode :=
  if ch = ' ' || ch = '\t' || ch = '\n' || ch = '\r' then ([], .normal)
  else if ch = '/' then ([], .slash l c)
  else if ch = '#' then ([], .directive)
  else if ch = quoteC then ([], .inStr [] l c false)
  else if ch = squoteC then ([], .inChar [] l c false)
  else if isIdentStartC ch then ([], .inIdent [ch] l c)
  else if ch.isDigit then ([], .inNum [ch] l c)
  else if isPunctC ch then ([⟨.punct, String.mk [ch], l, c⟩], .normal)
  else if isOpC ch then ([], .opPend ch l c)
  else ([⟨.invalid, String.mk [ch], l, c⟩], .normal)

/-- One scanner step: consumes exactly one character. -/
def step (m : Mode) (ch : Char) (l c : Nat) : List PTok × Mode :=
  match m with
  | .normal => stepNormal ch l c
  | .lineComment => if ch = '\n' then ([], .normal) else ([], .lineComment)
  | .directive => if ch = '\n' then ([], .normal) else ([], .directive)
  | .blockComment star =>
      if star && ch = '/' then ([], .normal) else ([], .blockComment (ch = '*'))
  | .inStr acc sl sc esc =>
      if esc then ([], .inStr (ch :: acc) sl sc false)
      else if ch = backslashC then ([], .inStr (ch :: acc) sl sc true)
      else if ch = quoteC then ([⟨.strLit, String.mk acc.reverse, sl, sc⟩], .normal)
      else if ch = '\n' then ([⟨.invalid, String.mk acc.reverse, sl, sc⟩], .normal)
      else ([], .inStr (ch :: acc) sl sc false)
  | .inChar acc sl sc esc =>
      if esc then ([], .inChar (ch :: acc) sl sc false)
      else if ch = backslashC then ([], .inChar (ch :: acc) sl sc true)
      else if ch = squoteC then ([⟨.strLit, String.mk acc.reverse, sl, sc⟩], .normal)
      else if ch = '\n' then ([⟨.invalid, String.mk acc.reverse, sl, sc⟩], .normal)
      else ([], .inChar (ch :: acc) sl sc false)
  | .inIdent acc sl sc =>
      if isIdentC ch then ([], .inIdent (ch :: acc) sl sc)
      else
        let (ts, m2) := stepNormal ch l c
        (finishWord acc sl sc :: ts, m2)
  | .inNum acc sl sc =>
      if ch.isAlphanum then ([], .inNum (ch :: acc) sl sc)
      else
        let (ts, m2) := stepNormal ch l c
        (⟨.numLit, String.mk acc.reverse, sl, sc⟩ :: ts, m2)
  | .opPend c0 sl sc =>
      if isTwoCharOp c0 ch then ([⟨.op, String.mk [c0, ch], sl, sc⟩], .normal)
      else
        let (ts, m2) := stepNormal ch l c
        (⟨.op, String.mk [c0], sl, sc⟩ :: ts, m2)
  | .slash sl sc =>
      if ch = '/' then ([], .lineComment)
      else if ch = '*' then ([], .blockComment false)
      else if ch = '=' then ([⟨.op, "/=", sl, sc⟩], .normal)
      else
        let (ts, m2) := stepNormal ch l c
        (⟨.op, "/", sl, sc⟩ :: ts, m2)

/-- Flush whatever construct is still open when the input ends.  An
unterminated string or character literal becomes an Invalid token; open
comments are silently discarded.  The tokenizer never fails. -/
def flushMode (m : Mode) : List PTok :=
  match m with
  | .normal => []
  | .lineComment => []
  | .directive => []
  | .blockComment _ => []
  | .inStr acc sl sc _ => [⟨.invalid, String.mk acc.reverse, sl, sc⟩]
  | .inChar acc sl sc _ => [⟨.invalid, String.mk acc.reverse, sl, sc⟩]
  | .inIdent acc sl sc => [finishWord acc sl sc]
  | .inNum acc sl sc => [⟨.numLit, String.mk acc.reverse, sl, sc⟩]
  | .opPend c0 sl sc => [⟨.op, String.mk [c0], sl, sc⟩]
  | .slash sl sc => [⟨.op, "/", sl, sc⟩]

/-- Line/column advance for one consumed character. -/
def nextLC (ch : Char) (l c : Nat) : Nat × Nat :=
  if ch = '\n' then (l + 1, 1) else (l, c + 1)

/-- The scanner state (mode, line, column) after consuming the characters:
one step per character, structurally recursive. -/
def runMode : List Char → Mode → Nat → Nat → Mode × Nat × Nat
  | [], m, l, c => (m, l, c)
  | ch :: rest, m, l, c =>
      match step m ch l c, nextLC ch l c with
      | (_, m2), (l2, c2) => runMode rest m2 l2 c2

/-- The tokens emitted while consuming the characters (without the
end-of-input flush), structurally recursive, one step per character. -/
def scanPart : List Char → Mode → Nat → Nat → List PTok
  | [], _, _, _ => []
  | ch :: rest, m, l, c =>
      match step m ch l c, nextLC ch l c with
      | (ts, m2), (l2, c2) => ts ++ scanPart rest m2 l2 c2

/-- Tokenization beginning at a given line number (the whole file starts at
line 1; an analysis of a single function starts at its first line). -/
def tokenizeFrom (startLine : Nat) (s : String) : List Token :=
  match runMode s.data .normal startLine 1 with
  | (m, l, c) =>
      (scanPart s.data .normal startLine 1 ++ flushMode m).map PTok.toToken ++ [⟨.eof, "", l, c⟩]

/-- Modelled from the spec: `tokenize(text) -> finite sequence<Token>`,
total, tolerant of malformed input. -/
def tokenize (s : String) : List Token := tokenizeFrom 1 s


/-! ## Resilient structural parser, modelled from spec section 4.2:
recursive descent with synchronization points (statement terminators, block
delimiters, declaration keywords); on a missing required token it emits a
StructuralDiagnostic, synthesizes the missing construct, and resumes. -/

/-- Structural node kinds (spec data model, restricted to what the corpus
exercises): File, Namespace, Class, Function, Block; statements are kept
as plain token spans. -/
inductive NKind where
  | file | nsp | cls | fn | blk
deriving DecidableEq, Repr

/-- Shallow structural tree: tagged nodes with a span and ordered children;
statements kept as plain token spans. -/
inductive SNode where
  | stmt (line : Nat) (toks : List Token)
  | node (kind : NKind) (name : String) (header : List Token)
         (startLine endLine : Nat) (children : List SNode)
deriving Repr

/-- Modelled from the spec: StructuralDiagnostic
`{line, expectedConstruct, recoveryAction, severity=Error}`. -/
structure SDiag where
  line : Nat
  expectedConstruct : String
  recoveryAction : String
deriving DecidableEq, Repr

structure PFrame where
  kind : NKind
  name : String
  header : List Token
  startLine : Nat
  childrenRev : List SNode
deriving Repr

structure PState where
  top : PFrame
  stackRest : List PFrame
  bufRev : List Token
  parenDepth : Nat
  pendingSemi : Option Nat
  diagsRev : List SDiag
  lastLine : Nat
deriving Repr

def openBraceS : String := String.mk [openBraceC]
def closeBraceS : String := String.mk [closeBraceC]

def PFrame.addChild (f : PFrame) (n : SNode) : PFrame :=
  { f with childrenRev := n :: f.childrenRev }

def PFrame.toNode (f : PFrame) (endLine : Nat) : SNode :=
  .node f.kind f.name f.header f.startLine endLine f.childrenRev.reverse

def containsKw (ts : List Token) (s : String) : Bool :=
  ts.any (fun t => t.kind = .keyword && t.text = s)

def containsText (ts : List Token) (s : String) : Bool :=
  ts.any (fun t => t.text = s)

def controlKws : List String := ["if", "for", "while", "switch", "else", "do", "return", "case"]

/-- Does the buffered span look like a function definition header
(`type name(params)` possibly with qualifiers), as opposed to a control
statement or an initializer? -/
def isFnHeader (ts : List Token) : Bool :=
  match ts with
  | [] => false
  | t0 :: _ =>
    (t0.kind = .keyword || t0.kind = .identifier) &&
    !(controlKws.contains t0.text) &&
    containsText ts "(" && containsText ts ")" && !(containsText ts "=")

/-- First identifier following one of the given keywords (used for the names
of namespaces and classes). -/
def identAfterKw : List Token → List String → String
  | [], _ => ""
  | t :: rest, kws =>
    if t.kind = .keyword && kws.contains t.text then
      match rest with
      | r :: _ => if r.kind = .identifier then r.text else identAfterKw rest kws
      | [] => ""
    else identAfterKw rest kws

/-- The identifier immediately before the first `(`: the function name. -/
def fnName : List Token → String
  | t :: u :: rest =>
      if u.text = "(" && t.kind = .identifier then t.text else fnName (u :: rest)
  | _ => ""

def missingSemiDiag (ln : Nat) : SDiag :=
  ⟨ln, "semicolon after type declaration", "inserted missing semicolon"⟩

def implicitDiag (ln : Nat) : SDiag :=
  ⟨ln, "closing brace", "implicitly closed scope at new declaration"⟩

def eofDiag (ln : Nat) : SDiag :=
  ⟨ln, "closing brace", "implicitly closed scope at end of file"⟩

def emitStmt (st : PState) : PState :=
  match st.bufRev.reverse with
  | [] => st
  | t :: ts =>
      { st with top := st.top.addChild (.stmt t.line (t :: ts)), bufRev := [] }

def pushFrame (st : PState) (k : NKind) (nm : String) (hdr : List Token) (sl : Nat) : PState :=
  { st with top := ⟨k, nm, hdr, sl, []⟩, stackRest := st.top :: st.stackRest, bufRev := [] }

/-- Close the innermost open frame at a `}`; a `}` with no open scope is a
recovered error.  A closed class or struct must be followed by `;`. -/
def popFrame (st : PState) (endLine : Nat) : PState :=
  match st.stackRest with
  | [] =>
      { st with diagsRev :=
          ⟨endLine, "matching open brace", "ignored stray closing brace"⟩ :: st.diagsRev }
  | f :: fs =>
      let wasCls := st.top.kind = .cls
      let st2 := { st with top := f.addChild (st.top.toNode endLine), stackRest := fs }
      if wasCls then { st2 with pendingSemi := some endLine } else st2

/-- Functions do not nest in C or C++: when a new definition header appears
while a function body is still open, implicitly close every open block and
the function, recording one diagnostic per implicitly closed scope
(spec section 4.2 recovery policy). -/
def closeForDecl : PFrame → List PFrame → Nat → List SDiag → PFrame × List PFrame × List SDiag
  | top, [], _, ds => (top, [], ds)
  | top, f :: fs, line, ds =>
    if top.kind = .blk then
      closeForDecl (f.addChild (top.toNode line)) fs line (implicitDiag line :: ds)
    else if top.kind = .fn then
      (f.addChild (top.toNode line), fs, implicitDiag line :: ds)
    else (top, f :: fs, ds)

/-- Classify the buffered span when a `{` opens a scope. -/
def handleOpenBrace (st : PState) (t : Token) : PState :=
  let buf := st.bufRev.reverse
  let sl := match buf with | b :: _ => b.line | [] => t.line
  if containsKw buf "namespace" then
    pushFrame st .nsp (identAfterKw buf ["namespace"]) buf sl
  else if containsKw buf "struct" || containsKw buf "class" then
    pushFrame st .cls (identAfterKw buf ["struct", "class"]) buf sl
  else if isFnHeader buf then
    if st.top.kind = .fn || st.top.kind = .blk then
      match closeForDecl st.top st.stackRest t.line st.diagsRev with
      | (top2, rest2, ds2) =>
        pushFrame { st with top := top2, stackRest := rest2, diagsRev := ds2 } .fn (fnName buf) buf sl
    else
      pushFrame st .fn (fnName buf) buf sl
  else
    pushFrame st .blk "" buf sl

def parseCore (st : PState) (t : Token) : PState :=
  if t.kind = .eof then st
  else if t.text = "(" then
    { st with parenDepth := st.parenDepth + 1, bufRev := t :: st.bufRev }
  else if t.text = ")" then
    { st with parenDepth := st.parenDepth - 1, bufRev := t :: st.bufRev }
  else if t.text = ";" && st.parenDepth = 0 then emitStmt st
  else if t.text = openBraceS && st.parenDepth = 0 then handleOpenBrace st t
  else if t.text = closeBraceS && st.parenDepth = 0 then popFrame (emitStmt st) t.line
  else { st with bufRev := t :: st.bufRev }

/-- One parser step; first settles a pending `;` obligation left by a closed
class or struct declaration (missing semicolon recovery, spec section 4.2). -/
def parseStep (st0 : PState) (t : Token) : PState :=
  let st := { st0 with lastLine := t.line }
  match st.pendingSemi with
  | some ln =>
      if t.text = ";" && st.parenDepth = 0 then { st with pendingSemi := none }
      else parseCore { st with pendingSemi := none,
                               diagsRev := missingSemiDiag ln :: st.diagsRev } t
  | none => parseCore st t

/-- Close every frame still open at end of file, one diagnostic per
implicitly closed scope (spec edge-case policy). -/
def closeAll : PFrame → List PFrame → Nat → List SDiag → PFrame × List SDiag
  | top, [], _, ds => (top, ds)
  | top, f :: fs, line, ds =>
      closeAll (f.addChild (top.toNode line)) fs line (eofDiag line :: ds)

def initPState : PState := ⟨⟨.file, "", [], 1, []⟩, [], [], 0, none, [], 1⟩

/-- The end-of-input step of the parser: flush the open statement, settle a
pending semicolon obligation, close all open scopes with one diagnostic
each, and produce the File root. -/
def finishParse (stF : PState) : SNode × List SDiag :=
  let eofLine := stF.lastLine
  let st2 := emitStmt stF
  let st3 :=
    match st2.pendingSemi with
    | some ln => { st2 with pendingSemi := none,
                            diagsRev := missingSemiDiag ln :: st2.diagsRev }
    | none => st2
  match closeAll st3.top st3.stackRest eofLine st3.diagsRev with
  | (rootF, ds) => (rootF.toNode eofLine, ds.reverse)

/-- Modelled from the spec: `parse(tokens) -> (StructuralNode root,
sequence<StructuralDiagnostic>)`; total, never aborts. -/
def parse (ts : List Token) : SNode × List SDiag :=
  finishParse (ts.foldl parseStep initPState)

def kindName : NKind → String
  | .file => "file"
  | .nsp => "namespace"
  | .cls => "class"
  | .fn => "function"
  | .blk => "block"

def sigOf : SNode → String × String × Nat × Nat
  | .stmt l _ => ("stmt", "", l, l)
  | .node k nm _ sl el _ => (kindName k, nm, sl, el)

def kidSigs : SNode → List (String × String × Nat × Nat)
  | .stmt _ _ => []
  | .node _ _ _ _ _ cs => cs.map sigOf

def nthKid (n : SNode) (i : Nat) : Option SNode :=
  match n with
  | .stmt _ _ => none
  | .node _ _ _ _ _ cs => cs.get? i

/-- The full text of src/multilang_test/semantic_bugs.c from the repository, embedded verbatim. -/
def semanticBugsC_text : String :=
  "\n#include <stdio.h>\n#include <stdlib.h>\n#include <string.h>\n\n#define MAX_BUFFER 256\n#define MAX_USERS 100\n\nint global_count = 0;\n\n\nvoid greet_user(char *name) \x7b\n    char buffer[64];\n    sprintf(buffer, \"Hello, %s! Welcome.\", name);  \n    printf(\"%s\\n\", buffer);\n\x7d\n\n\nint* create_array(int size) \x7b\n    int *arr = (int*)malloc(size * sizeof(int));\n    if (arr == NULL) \x7b\n        return NULL;  \n    \x7d\n    for (int i = 0; i <= size; i++) \x7b  \n        arr[i] = i * 2;\n    \x7d\n    return arr;  \n\x7d\n\n\nvoid process_and_free(int *data, int len) \x7b\n    free(data);\n    \n    for (int i = 0; i < len; i++) \x7b\n        printf(\"%d \", data[i]);\n    \x7d\n    printf(\"\\n\");\n\x7d\n\n\nvoid print_length(const char *str) \x7b\n    int len = strlen(str);  \n    printf(\"Length: %d\\n\", len);\n\x7d\n\n\nint multiply_large(int a, int b) \x7b\n    return a * b;  \n\x7d\nvoid cleanup(int *ptr) \x7b\n    free(ptr);\n    free(ptr);  \n\x7d\n\nint main() \x7b\n    char *long_name = \"AAAAAAAAAAAAAAAAAAAAAAAAAAAAAAAAAAAAAAAAAAAAAAAAAAAAAAAAAAAAAAAAAAAAAAAA\";\n    greet_user(long_name);\n\n    int *arr = create_array(10);\n    process_and_free(arr, 10);\n\n    print_length(NULL);\n\n    return 0;\n\x7d\n\n"

/-- The full text of src/multilang_test/semantic_bugs.cpp from the repository, embedded verbatim. -/
def semanticBugsCpp_text : String :=
  "\n#include <iostream>\n#include <vector>\n#include <string>\n#include <memory>\n\n#define MAX_SIZE 1024\n\nclass ResourceManager \x7b\nprivate:\n    int* resource;\n    bool is_open;\n\npublic:\n    ResourceManager() \x7b\n        resource = new int[100];\n        is_open = true;\n    \x7d\n\n   \n    ~ResourceManager() \x7b\n        delete[] resource;\n    \x7d\n\n    \n\n    void close() \x7b\n        is_open = false;\n        delete[] resource;\n        \n    \x7d\n\n    int get(int index) \x7b\n        \n        return resource[index];\n    \x7d\n\n    void reopen() \x7b\n        \n        resource = new int[100];\n        is_open = true;\n    \x7d\n\x7d;\n\n\nstd::string& get_greeting(const std::string& name) \x7b\n    std::string greeting = \"Hello, \" + name;\n    return greeting;  \n\x7d\n\n\nvoid remove_evens(std::vector<int>& vec) \x7b\n    for (auto it = vec.begin(); it != vec.end(); ++it) \x7b\n        if (*it % 2 == 0) \x7b\n            vec.erase(it);  \n        \x7d\n    \x7d\n\x7d\n\n\nclass Animal \x7b\npublic:\n    virtual std::string speak() \x7b return \"...\"; \x7d\n\x7d;\n\nclass Dog : public Animal \x7b\npublic:\n    std::string speak() override \x7b return \"Woof!\"; \x7d\n\x7d;\n\nvoid make_speak(Animal a) \x7b  \n    std::cout << a.speak() << std::endl;\n\x7d\n\nint main() \x7b\n    ResourceManager rm;\n    rm.close();\n    int val = rm.get(5);  \n\n    Dog d;\n    make_speak(d); \n\n    std::vector<int> nums = \x7b1, 2, 3, 4, 5, 6\x7d;\n    remove_evens(nums);\n\n    return 0;\n\x7d\n\n"

/-- The full text of src/structural_test/network_utils.cpp from the repository, embedded verbatim. -/
def networkUtils_text : String :=
  "#include <iostream>\n#include <string>\n\nvoid log_message(std::string msg) \x7b\n    std::cout << \"[LOG] \" << msg << std::endl;\n\nint calculate_latency(int start, int end) \x7b\n    return end - start;\n\x7d\n\nbool check_connection(std::string host) \x7b\n    log_message(\"Checking connection to \" + host);\n    return true;\n\x7d\n\nvoid initialize_network() \x7b\n    log_message(\"Initializing...\");\n\x7d\n\nvoid shutdown_network() \x7b\n    log_message(\"Shutting down...\");\n\x7d"

def bstChunk1 : String :=
  "/**\n * Advanced Binary Search Tree Template\n * A production-grade BST implementation with intentional syntax errors for testing.\n */\n\n#include <iostream>\n#include <memory>\n#include <vector>\n#include <algorithm>\n#include <stdexcept>\n#include <queue>\n#include <functional>\n\nnamespace DataStructures \x7b\n\n// ERROR 1: Missing semicolon after template declaration (line 18)\ntemplate<typename T>\nstruct TreeNode \x7b\n    T data;\n    std::shared_ptr<TreeNode<T>> left;\n    std::shared_ptr<TreeNode<T>> right;\n    int height;\n    \n    TreeNode(const T& value) \n        : data(value), left(nullptr), right(nullptr), height(1) \x7b\x7d\n    \n    TreeNode(T&& value)\n        : data(std::move(value)), left(nullptr), right(nullptr), height(1) \x7b\x7d\n\x7d\n\ntemplate<typename T, typename Compare = std::less<T>>\nclass BinarySearchTree \x7b\nprivate:\n    std::shared_ptr<TreeNode<T>> root;\n    size_t tree_size;\n    Compare comparator;\n    \n    // Helper function to get node height\n    int getHeight(const std::shared_ptr<TreeNode<T>>& node) const \x7b\n        return node ? node->height : 0;\n    \x7d\n    \n    // Update height after insertion/deletion\n    void updateHeight(std::shared_ptr<TreeNode<T>>& node) \x7b\n        if (node) \x7b\n            node->height = 1 + std::max(getHeight(node->left), getHeight(node->right));\n        \x7d\n    \x7d\n    \n    // Calculate balance factor\n    int getBalance(const std::shared_ptr<TreeNode<T>>& node) const \x7b\n        return node ? getHeight(node->left) - getHeight(node->right) : 0;\n    \x7d\n    \n    // Right rotation for balancing\n    std::shared_ptr<TreeNode<T>> rotateRight(std::shared_ptr<TreeNode<T>>& y) \x7b\n        auto x = y->left;\n        auto T2 = x->right;\n        \n        x->right = y;\n        y->left = T2;\n        \n        updateHeight(y);\n        updateHeight(x);\n        \n        return x;\n    \x7d\n    \n    // Left rotation for balancing\n    std::shared_ptr<TreeNode<T>> rotateLeft(std::shared_ptr<TreeNode<T>>& x) \x7b\n        auto y = x->right;\n        auto T2 = y->left;\n        \n        y->left = x;\n        x->right = T2;\n        \n        updateHeight(x);\n        updateHeight(y);\n        \n        return y;\n    \x7d\n"

def bstChunk2 : String :=
  "    \n    // ERROR 2: Missing << operator (line 86)\n    std::shared_ptr<TreeNode<T>> insertHelper(std::shared_ptr<TreeNode<T>>& node, \n                                                const T& value) \x7b\n        if (!node) \x7b\n            tree_size++;\n            return std::make_shared<TreeNode<T>>(value);\n        \x7d\n        \n        if (comparator(value, node->data)) \x7b\n            node->left = insertHelper(node->left, value);\n        \x7d else if (comparator(node->data, value)) \x7b\n            node->right = insertHelper(node->right, value);\n        \x7d else \x7b\n            std::cerr < \"Duplicate value detected: \" << value << std::endl;\n            return node;\n        \x7d\n        \n        updateHeight(node);\n        \n        int balance = getBalance(node);\n        \n        // Left-Left case\n        if (balance > 1 && comparator(value, node->left->data)) \x7b\n            return rotateRight(node);\n        \x7d\n        \n        // Right-Right case\n        if (balance < -1 && comparator(node->right->data, value)) \x7b\n            return rotateLeft(node);\n        \x7d\n        \n        // Left-Right case\n        if (balance > 1 && comparator(node->left->data, value)) \x7b\n            node->left = rotateLeft(node->left);\n            return rotateRight(node);\n        \x7d\n        \n        // Right-Left case\n        if (balance < -1 && comparator(value, node->right->data)) \x7b\n            node->right = rotateRight(node->right);\n            return rotateLeft(node);\n        \x7d\n        \n        return node;\n    \x7d\n    \n    // Find minimum value node\n    std::shared_ptr<TreeNode<T>> findMin(std::shared_ptr<TreeNode<T>>& node) const \x7b\n        while (node && node->left) \x7b\n            node = node->left;\n        \x7d\n        return node;\n    \x7d\n    \n    // ERROR 3: Missing closing brace for function (line 145)\n"

def bstChunk3 : String :=
  "    std::shared_ptr<TreeNode<T>> deleteHelper(std::shared_ptr<TreeNode<T>>& node,\n                                                const T& value) \x7b\n        if (!node) \x7b\n            return node;\n        \x7d\n        \n        if (comparator(value, node->data)) \x7b\n            node->left = deleteHelper(node->left, value);\n        \x7d else if (comparator(node->data, value)) \x7b\n            node->right = deleteHelper(node->right, value);\n        \x7d else \x7b\n            if (!node->left || !node->right) \x7b\n                auto temp = node->left ? node->left : node->right;\n                if (!temp) \x7b\n                    node = nullptr;\n                \x7d else \x7b\n                    node = temp;\n                \x7d\n                tree_size--;\n            \x7d else \x7b\n                auto temp = findMin(node->right);\n                node->data = temp->data;\n                node->right = deleteHelper(node->right, temp->data);\n            \x7d\n        \n        // Missing closing brace here\n        \n        if (!node) \x7b\n            return node;\n        \x7d\n        \n        updateHeight(node);\n        \n        int balance = getBalance(node);\n        \n        if (balance > 1 && getBalance(node->left) >= 0) \x7b\n            return rotateRight(node);\n        \x7d\n        \n        if (balance > 1 && getBalance(node->left) < 0) \x7b\n            node->left = rotateLeft(node->left);\n            return rotateRight(node);\n        \x7d\n        \n        if (balance < -1 && getBalance(node->right) <= 0) \x7b\n            return rotateLeft(node);\n        \x7d\n        \n        if (balance < -1 && getBalance(node->right) > 0) \x7b\n            node->right = rotateRight(node->right);\n            return rotateLeft(node);\n        \x7d\n        \n        return node;\n    \x7d\n    \n"

def bstChunk4 : String :=
  "    bool searchHelper(const std::shared_ptr<TreeNode<T>>& node, const T& value) const \x7b\n        if (!node) \x7b\n            return false;\n        \x7d\n        \n        if (comparator(value, node->data)) \x7b\n            return searchHelper(node->left, value);\n        \x7d else if (comparator(node->data, value)) \x7b\n            return searchHelper(node->right, value);\n        \x7d\n        \n        return true;\n    \x7d\n    \n    void inorderHelper(const std::shared_ptr<TreeNode<T>>& node,\n                      std::vector<T>& result) const \x7b\n        if (node) \x7b\n            inorderHelper(node->left, result);\n            result.push_back(node->data);\n            inorderHelper(node->right, result);\n        \x7d\n    \x7d\n\npublic:\n    BinarySearchTree() : root(nullptr), tree_size(0), comparator(Compare()) \x7b\x7d\n    \n    explicit BinarySearchTree(const Compare& comp) \n        : root(nullptr), tree_size(0), comparator(comp) \x7b\x7d\n    \n    void insert(const T& value) \x7b\n        root = insertHelper(root, value);\n    \x7d\n    \n    void insert(T&& value) \x7b\n        root = insertHelper(root, std::move(value));\n    \x7d\n    \n    bool remove(const T& value) \x7b\n        size_t old_size = tree_size;\n        root = deleteHelper(root, value);\n        return old_size != tree_size;\n    \x7d\n    \n    bool contains(const T& value) const \x7b\n        return searchHelper(root, value);\n    \x7d\n    \n    size_t size() const \x7b\n        return tree_size;\n    \x7d\n    \n"

def bstChunk5 : String :=
  "    bool empty() const \x7b\n        return tree_size == 0;\n    \x7d\n    \n    std::vector<T> inorderTraversal() const \x7b\n        std::vector<T> result;\n        result.reserve(tree_size);\n        inorderHelper(root, result);\n        return result;\n    \x7d\n    \n    void clear() \x7b\n        root = nullptr;\n        tree_size = 0;\n    \x7d\n    \n    int height() const \x7b\n        return getHeight(root);\n    \x7d\n\x7d;\n\n\x7d // namespace DataStructures\n\n// Test driver\nint main() \x7b\n    using namespace DataStructures;\n    \n    BinarySearchTree<int> bst;\n    \n    std::cout << \"Inserting elements: 10, 20, 30, 40, 50, 25\" << std::endl;\n    bst.insert(10);\n    bst.insert(20);\n    bst.insert(30);\n    bst.insert(40);\n    bst.insert(50);\n    bst.insert(25);\n    \n    std::cout << \"Tree size: \" << bst.size() << std::endl;\n    std::cout << \"Tree height: \" << bst.height() << std::endl;\n    \n    std::cout << \"Inorder traversal: \";\n    auto elements = bst.inorderTraversal();\n    for (const auto& elem : elements) \x7b\n        std::cout << elem << \" \";\n    \x7d\n    std::cout << std::endl;\n    \n    std::cout << \"Contains 25? \" << (bst.contains(25) ? \"Yes\" : \"No\") << std::endl;\n    std::cout << \"Contains 15? \" << (bst.contains(15) ? \"Yes\" : \"No\") << std::endl;\n    \n    bst.remove(20);\n    std::cout << \"After removing 20, size: \" << bst.size() << std::endl;\n    \n    return 0;\n\x7d\n\n"

/-- The full text of src/realistic_test/bst_template.cpp from the repository:
the concatenation of the five chunks is the file, verbatim. -/
def bstTemplate_text : String :=
  bstChunk1 ++ (bstChunk2 ++ (bstChunk3 ++ (bstChunk4 ++ bstChunk5)))

-- chunk char sizes: [2118, 1783, 1724, 1408, 1343]



/-! ## Ownership sketch and rule engine, modelled from spec section 4.3:
for each pointer or resource-like variable, the ordered log of acquire,
release, use events inside its enclosing function, built by a single
forward walk over the function statement sequence. -/

structure StmtI where
  line : Nat
  toks : List Token
deriving Repr

mutual
def stmtsOf : SNode → List StmtI
  | .stmt l ts => [⟨l, ts⟩]
  | .node _ _ _ _ _ cs => stmtsOfList cs

def stmtsOfList : List SNode → List StmtI
  | [] => []
  | n :: ns => stmtsOf n ++ stmtsOfList ns
end

def isForHeader (hdr : List Token) : Bool :=
  match hdr with
  | t :: _ => t.kind = .keyword && t.text = "for"
  | [] => false

mutual
def loopsOf : SNode → List (List Token × List StmtI)
  | .stmt _ _ => []
  | .node k _ hdr _ _ cs =>
      let inner := loopsOfList cs
      if k = .blk && isForHeader hdr then (hdr, stmtsOfList cs) :: inner else inner

def loopsOfList : List SNode → List (List Token × List StmtI)
  | [] => []
  | n :: ns => loopsOf n ++ loopsOfList ns
end

mutual
def fnsOf : SNode → List SNode
  | .stmt _ _ => []
  | .node k nm hdr sl el cs =>
      let inner := fnsOfList cs
      if k = .fn then .node k nm hdr sl el cs :: inner else inner

def fnsOfList : List SNode → List SNode
  | [] => []
  | n :: ns => fnsOf n ++ fnsOfList ns
end

mutual
def countNamed : SNode → String → Nat
  | .stmt _ _, _ => 0
  | .node _ nm _ _ _ cs, s => (if nm = s then 1 else 0) + countNamedList cs s

def countNamedList : List SNode → String → Nat
  | [], _ => 0
  | n :: ns, s => countNamed n s + countNamedList ns s
end

/-- Release-capability calls: `free(v)`, `delete v`, `delete[] v`, and a
release method call `v.close()` (spec UseAfterClose example). -/
def releaseTarget (toks : List Token) : Option String :=
  match toks with
  | t0 :: t1 :: t2 :: _ =>
      if t0.text = "free" && t1.text = "(" && t2.kind = .identifier then some t2.text
      else if t0.kind = .keyword && t0.text = "delete" then
        match (t1 :: t2 :: []).filter (fun t => t.kind = .identifier) with
        | v :: _ => some v.text
        | [] => (toks.drop 3).find? (fun t => t.kind = .identifier) |>.map Token.text
      else if t0.kind = .identifier && t1.text = "." && t2.text = "close" then some t0.text
      else none
  | _ => none

/-- The identifier being introduced or assigned: last identifier before the
first `=` of the statement. -/
def identBeforeEq (toks : List Token) : Option String :=
  let before := toks.takeWhile (fun t => t.text ≠ "=")
  before.reverse.find? (fun t => t.kind = .identifier) |>.map Token.text

/-- Acquisition: assignment or initialization from `malloc`/`new`, or a
re-acquiring method call `v.reopen()` / `v.open()`. -/
def acquireTarget (toks : List Token) : Option String :=
  if containsText toks "malloc" || containsKw toks "new" then identBeforeEq toks
  else
    match toks with
    | t0 :: t1 :: t2 :: _ =>
        if t0.kind = .identifier && t1.text = "." && (t2.text = "reopen" || t2.text = "open")
        then some t0.text else none
    | _ => none

/-- A bare declaration `Type name`. -/
def declTarget (toks : List Token) : Option String :=
  match toks with
  | [t0, t1] =>
      if (t0.kind = .identifier || t0.kind = .keyword) && t1.kind = .identifier
      then some t1.text else none
  | _ => none

inductive EvType where
  | acquire | release | useEv | declared
deriving DecidableEq, Repr

structure Ev where
  ety : EvType
  line : Nat
deriving DecidableEq, Repr

/-- Ownership-sketch events of variable `v`, one forward walk over the
statement sequence. -/
def eventsFor (v : String) (stmts : List StmtI) : List Ev :=
  stmts.filterMap fun s =>
    if releaseTarget s.toks = some v then some ⟨.release, s.line⟩
    else if acquireTarget s.toks = some v then some ⟨.acquire, s.line⟩
    else if declTarget s.toks = some v then some ⟨.declared, s.line⟩
    else if s.toks.any (fun t => t.kind = .identifier && t.text = v) then some ⟨.useEv, s.line⟩
    else none

def dedupStrAux (seen : List String) : List String → List String
  | [] => []
  | s :: rest =>
      if seen.contains s then dedupStrAux seen rest
      else s :: dedupStrAux (s :: seen) rest

/-- Variables with an acquire or release event: the resource-like locals the
semantic rules track. -/
def trackedVars (stmts : List StmtI) : List String :=
  dedupStrAux []
    (stmts.filterMap (fun s => releaseTarget s.toks) ++
     stmts.filterMap (fun s => acquireTarget s.toks))

/-! ## Findings and the rule catalog (the variants the corpus exercises). -/

inductive RuleId where
  | structuralDiag | doubleFree | useAfterFree | loopBounds | danglingReference
deriving DecidableEq, Repr

def RuleId.idx : RuleId → Nat
  | .structuralDiag => 0
  | .doubleFree => 1
  | .useAfterFree => 2
  | .loopBounds => 3
  | .danglingReference => 4

/-- Modelled from the spec: SemanticFinding `{line, ruleId, severity,
message}`, a comparable value type. -/
structure Finding where
  line : Nat
  ruleId : RuleId
  severity : String
  message : String
deriving DecidableEq, Repr

/-- DoubleFreeRule: a release on a variable that already has an earlier
release event with no intervening re-acquisition. -/
def doubleFreeScan (v : String) : List Ev → Bool → List Finding
  | [], _ => []
  | e :: rest, freed =>
    match e.ety with
    | .release =>
        (if freed then [⟨e.line, .doubleFree, "error", "double free of variable " ++ v⟩] else [])
          ++ doubleFreeScan v rest true
    | .acquire => doubleFreeScan v rest false
    | _ => doubleFreeScan v rest freed

/-- UseAfterFreeRule / UseAfterCloseRule: any read, index, or call on a
variable after its release event and before any re-acquisition. -/
def useAfterFreeScan (v : String) : List Ev → Bool → List Finding
  | [], _ => []
  | e :: rest, freed =>
    match e.ety with
    | .release => useAfterFreeScan v rest true
    | .acquire => useAfterFreeScan v rest false
    | .useEv =>
        (if freed then [⟨e.line, .useAfterFree, "error", "use after free of variable " ++ v⟩] else [])
          ++ useAfterFreeScan v rest freed
    | .declared => useAfterFreeScan v rest freed

def splitSemis : List Token → List (List Token)
  | [] => [[]]
  | t :: rest =>
    let r := splitSemis rest
    if t.text = ";" then [] :: r
    else
      match r with
      | g :: gs => (t :: g) :: gs
      | [] => [[t]]

/-- From a `for` header, the counter and rendered bound of an inclusive
comparison `counter <= bound`. -/
def forCondParts (hdr : List Token) : Option (String × String) :=
  match splitSemis hdr with
  | [_, cond, _] =>
      match cond with
      | i :: opT :: rest =>
          if i.kind = .identifier && opT.text = "<=" && !rest.isEmpty then
            some (i.text, String.intercalate " " (rest.map Token.text))
          else none
      | _ => none
  | _ => none

/-- First array variable indexed with the loop counter inside a statement. -/
def findIndexUse (counter : String) : List Token → Option String
  | a :: b :: c :: d :: rest =>
      if a.kind = .identifier && b.text = "[" && c.text = counter && d.text = "]"
      then some a.text
      else findIndexUse counter (b :: c :: d :: rest)
  | _ => none

def collectArgs : List Token → Nat → List Token
  | [], _ => []
  | t :: rest, d =>
      if t.text = "(" then t :: collectArgs rest (d + 1)
      else if t.text = ")" then (if d ≤ 1 then [] else t :: collectArgs rest (d - 1))
      else t :: collectArgs rest d

def argsAfterMalloc : List Token → Option (List Token)
  | [] => none
  | t :: rest =>
      if t.text = "malloc" then
        match rest with
        | u :: rest2 => if u.text = "(" then some (collectArgs rest2 1) else none
        | [] => none
      else argsAfterMalloc rest

/-- Allocation statement: the variable and the rendered element count of its
`malloc(count * sizeof(T))` allocation. -/
def allocSizeOf (toks : List Token) : Option (String × String) :=
  match argsAfterMalloc toks with
  | none => none
  | some args =>
      match identBeforeEq toks with
      | none => none
      | some v =>
          let count := args.takeWhile (fun t => t.text ≠ "*")
          some (v, String.intercalate " " (count.map Token.text))

/-- LoopBoundsRule: a loop bound that reaches an allocation size it indexes
into (`i <= size` against a buffer of `size` elements). -/
def loopBoundsFindings (allocs : List (String × String)) :
    List (List Token × List StmtI) → List Finding
  | [] => []
  | (hdr, body) :: rest =>
      let here :=
        match forCondParts hdr with
        | none => []
        | some (counter, bound) =>
            body.filterMap fun s =>
              match findIndexUse counter s.toks with
              | some arr =>
                  if allocs.contains (arr, bound) then
                    some ⟨(match hdr with | t :: _ => t.line | [] => s.line),
                          .loopBounds, "error",
                          "off-by-one: loop bound " ++ bound ++
                          " reaches allocation size of " ++ arr⟩
                  else none
              | none => none
      here ++ loopBoundsFindings allocs rest

/-- Does the function header declare a reference return type: a `&` before
the first `(`? -/
def refReturn : List Token → Bool
  | [] => false
  | t :: rest =>
      if t.text = "(" then false
      else if t.text = "&" then true
      else refReturn rest

/-- Local variable declarations: `Type v = ...` (at least a type token
before `v`, no call before the `=`) and bare `Type v`. -/
def localDeclTarget (toks : List Token) : Option String :=
  match declTarget toks with
  | some v => some v
  | none =>
      let before := toks.takeWhile (fun t => t.text ≠ "=")
      if before.length < 2 || before.length = toks.length || containsText before "(" then none
      else
        match before.reverse with
        | t :: _ => if t.kind = .identifier then some t.text else none
        | [] => none

/-- DanglingReferenceRule: a function with a reference return type returning
a local variable. -/
def danglingRefFindings (hdr : List Token) (stmts : List StmtI) : List Finding :=
  if refReturn hdr then
    let locals := stmts.filterMap (fun s => localDeclTarget s.toks)
    stmts.filterMap fun s =>
      match s.toks with
      | [r, v] =>
          if r.text = "return" && v.kind = .identifier && locals.contains v.text then
            some ⟨s.line, .danglingReference, "error",
                  "returning reference to local variable " ++ v.text⟩
          else none
      | _ => none
  else []

/-- Run the rule catalog over one function node. -/
def analyzeFn : SNode → List Finding
  | .node .fn _ hdr _ _ cs =>
      let stmts := stmtsOfList cs
      let tracked := trackedVars stmts
      let allocs := stmts.filterMap (fun s => allocSizeOf s.toks)
      let loops := loopsOfList cs
      ((tracked.map fun v => doubleFreeScan v (eventsFor v stmts) false).flatten) ++
      ((tracked.map fun v => useAfterFreeScan v (eventsFor v stmts) false).flatten) ++
      loopBoundsFindings allocs loops ++
      danglingRefFindings hdr stmts
  | _ => []

/-- Modelled from the spec: the pattern-matcher engine, every rule over every
function of the tree. -/
def semanticFindings (root : SNode) : List Finding :=
  ((fnsOf root).map analyzeFn).flatten


/-! ## Finding aggregator, modelled from spec section 4.4: convert both
diagnostic kinds into the common finding shape, deduplicate by
(line, ruleId, message), sort by (line, ruleId) ascending.  A pure function
with no side effects. -/

def diagToFinding (d : SDiag) : Finding :=
  ⟨d.line, .structuralDiag, "error", d.expectedConstruct ++ ": " ++ d.recoveryAction⟩

/-- The sort key order: non-decreasing in (line, ruleId). -/
def keyLe (a b : Finding) : Prop :=
  a.line < b.line ∨ (a.line = b.line ∧ a.ruleId.idx ≤ b.ruleId.idx)

def keyLeB (a b : Finding) : Bool :=
  a.line < b.line || (a.line = b.line && a.ruleId.idx ≤ b.ruleId.idx)

def insertFinding (x : Finding) : List Finding → List Finding
  | [] => [x]
  | y :: ys => if keyLeB x y then x :: y :: ys else y :: insertFinding x ys

def sortFindings : List Finding → List Finding
  | [] => []
  | x :: xs => insertFinding x (sortFindings xs)

/-- The dedup key: (line, ruleId, message). -/
def key3 (f : Finding) : Nat × Nat × String := (f.line, f.ruleId.idx, f.message)

def dedupFindings (seen : List (Nat × Nat × String)) : List Finding → List Finding
  | [] => []
  | f :: fs =>
      if key3 f ∈ seen then dedupFindings seen fs
      else f :: dedupFindings (key3 f :: seen) fs

/-- Modelled from the spec: `aggregate(structural, semantic) -> Report`. -/
def aggregate (ds : List SDiag) (sf : List Finding) : List Finding :=
  sortFindings (dedupFindings [] (ds.map diagToFinding ++ sf))

/-- Modelled from the spec: the full single-file analysis,
text -> tokens -> tree + structural diagnostics -> semantic findings ->
aggregated report. -/
def analyze (text : String) : List Finding :=
  match parse (tokenize text) with
  | (root, ds) => aggregate ds (semanticFindings root)

/-- A plain-text rendering of a report, used to state byte-level determinism. -/
def renderReport (r : List Finding) : String :=
  String.intercalate "\n"
    (r.map fun f =>
      toString f.line ++ ":" ++ toString f.ruleId.idx ++ ":" ++ f.severity ++ ":" ++ f.message)






/-! ## Substring containment (for message wording claims). -/

def isPrefixList : List Char → List Char → Bool
  | [], _ => true
  | _ :: _, [] => false
  | a :: as, b :: bs => a = b && isPrefixList as bs

def containsSubList (n : List Char) : List Char → Bool
  | [] => isPrefixList n []
  | b :: bs => isPrefixList n (b :: bs) || containsSubList n bs

def containsSub (needle hay : String) : Bool := containsSubList needle.data hay.data

/-! ## Ownership-sketch semantics used by the UseAfterFreeRule claim. -/

def RelAt (evs : List Ev) (j : Nat) : Prop :=
  ∃ e, evs.get? j = some e ∧ e.ety = EvType.release

def AcqAt (evs : List Ev) (k : Nat) : Prop :=
  ∃ e, evs.get? k = some e ∧ e.ety = EvType.acquire

/-- The variable is in released state at position `i`: some earlier release
with no intervening re-acquisition. -/
def FreedBefore (evs : List Ev) (i : Nat) : Prop :=
  ∃ j, j < i ∧ RelAt evs j ∧ ∀ k, j < k → k < i → ¬ AcqAt evs k

def NoAcqBefore (evs : List Ev) (i : Nat) : Prop :=
  ∀ k, k < i → ¬ AcqAt evs k

/-! ## The remove_evens loop of semantic_bugs.cpp. -/

/-- The loop of remove_evens (semantic_bugs.cpp lines 52-58), with vector
iterators modelled as indices: `it` is the index, `vec.erase(it)` removes the
element at the index, and the loop increment `++it` runs after every body,
also after an erase.  An iterator moved strictly past `end()` no longer
compares equal to `end()`; that run is undefined behavior and is modelled as
`none`, as is fuel exhaustion.  The second component counts erase calls. -/
def removeEvensLoop : Nat → List Int → Nat → Nat → Option (List Int × Nat)
  | 0, _, _, _ => none
  | fuel + 1, vec, it, erased =>
      if it = vec.length then some (vec, erased)
      else if h2 : it < vec.length then
        if (vec.get ⟨it, h2⟩).tmod 2 = 0 then
          removeEvensLoop fuel (vec.eraseIdx it) (it + 1) (erased + 1)
        else removeEvensLoop fuel vec (it + 1) erased
      else none

/-- remove_evens from semantic_bugs.cpp: iterate over the vector, erasing
even elements through the iterator. -/
def remove_evens (vec : List Int) : Option (List Int × Nat) :=
  removeEvensLoop (vec.length + 1) vec 0 0

/-! ## Chunked evaluation machinery: the scanner and parser are evaluated on
the bst fixture in bounded segments, composed by the append lemmas below. -/

def tk (k : TkKind) (s : String) (l c : Nat) : Token := ⟨k, s, l, c⟩

def bstSt1_f0 : PFrame :=
  PFrame.mk .cls "BinarySearchTree" [(tk .keyword "template" 31 1), (tk .op "<" 31 9), (tk .keyword "typename" 31 10), (tk .identifier "T" 31 19), (tk .punct "," 31 20), (tk .keyword "typename" 31 22), (tk .identifier "Compare" 31 31), (tk .op "=" 31 39), (tk .identifier "std" 31 41), (tk .op "::" 31 44), (tk .identifier "less" 31 46), (tk .op "<" 31 50), (tk .identifier "T" 31 51), (tk .op ">>" 31 52), (tk .keyword "class" 32 1), (tk .identifier "BinarySearchTree" 32 7)] 31 ((SNode.node .fn "rotateLeft" [(tk .identifier "std" 70 5), (tk .op "::" 70 8), (tk .identifier "shared_ptr" 70 10), (tk .op "<" 70 20), (tk .identifier "TreeNode" 70 21), (tk .op "<" 70 29), (tk .identifier "T" 70 30), (tk .op ">>" 70 31), (tk .identifier "rotateLeft" 70 34), (tk .punct "(" 70 44), (tk .identifier "std" 70 45), (tk .op "::" 70 48), (tk .identifier "shared_ptr" 70 50), (tk .op "<" 70 60), (tk .identifier "TreeNode" 70 61), (tk .op "<" 70 69), (tk .identifier "T" 70 70), (tk .op ">>" 70 71), (tk .op "&" 70 73), (tk .identifier "x" 70 75), (tk .punct ")" 70 76)] 70 81 ((SNode.stmt 71 [(tk .keyword "auto" 71 9), (tk .identifier "y" 71 14), (tk .op "=" 71 16), (tk .identifier "x" 71 18), (tk .op "->" 71 19), (tk .identifier "right" 71 21)]) :: ((SNode.stmt 72 [(tk .keyword "auto" 72 9), (tk .identifier "T2" 72 14), (tk .op "=" 72 17), (tk .identifier "y" 72 19), (tk .op "->" 72 20), (tk .identifier "left" 72 22)]) :: ((SNode.stmt 74 [(tk .identifier "y" 74 9), (tk .op "->" 74 10), (tk .identifier "left" 74 12), (tk .op "=" 74 17), (tk .identifier "x" 74 19)]) :: ((SNode.stmt 75 [(tk .identifier "x" 75 9), (tk .op "->" 75 10), (tk .identifier "right" 75 12), (tk .op "=" 75 18), (tk .identifier "T2" 75 20)]) :: ((SNode.stmt 77 [(tk .identifier "updateHeight" 77 9), (tk .punct "(" 77 21), (tk .identifier "x" 77 22), (tk .punct ")" 77 23)]) :: ((SNode.stmt 78 [(tk .identifier "updateHeight" 78 9), (tk .punct "(" 78 21), (tk .identifier "y" 78 22), (tk .punct ")" 78 23)]) :: ((SNode.stmt 80 [(tk .keyword "return" 80 9), (tk .identifier "y" 80 16)]) :: [])))))))) :: ((SNode.node .fn "rotateRight" [(tk .identifier "std" 56 5), (tk .op "::" 56 8), (tk .identifier "shared_ptr" 56 10), (tk .op "<" 56 20), (tk .identifier "TreeNode" 56 21), (tk .op "<" 56 29), (tk .identifier "T" 56 30), (tk .op ">>" 56 31), (tk .identifier "rotateRight" 56 34), (tk .punct "(" 56 45), (tk .identifier "std" 56 46), (tk .op "::" 56 49), (tk .identifier "shared_ptr" 56 51), (tk .op "<" 56 61), (tk .identifier "TreeNode" 56 62), (tk .op "<" 56 70), (tk .identifier "T" 56 71), (tk .op ">>" 56 72), (tk .op "&" 56 74), (tk .identifier "y" 56 76), (tk .punct ")" 56 77)] 56 67 ((SNode.stmt 57 [(tk .keyword "auto" 57 9), (tk .identifier "x" 57 14), (tk .op "=" 57 16), (tk .identifier "y" 57 18), (tk .op "->" 57 19), (tk .identifier "left" 57 21)]) :: ((SNode.stmt 58 [(tk .keyword "auto" 58 9), (tk .identifier "T2" 58 14), (tk .op "=" 58 17), (tk .identifier "x" 58 19), (tk .op "->" 58 20), (tk .identifier "right" 58 22)]) :: ((SNode.stmt 60 [(tk .identifier "x" 60 9), (tk .op "->" 60 10), (tk .identifier "right" 60 12), (tk .op "=" 60 18), (tk .identifier "y" 60 20)]) :: ((SNode.stmt 61 [(tk .identifier "y" 61 9), (tk .op "->" 61 10), (tk .identifier "left" 61 12), (tk .op "=" 61 17), (tk .identifier "T2" 61 19)]) :: ((SNode.stmt 63 [(tk .identifier "updateHeight" 63 9), (tk .punct "(" 63 21), (tk .identifier "y" 63 22), (tk .punct ")" 63 23)]) :: ((SNode.stmt 64 [(tk .identifier "updateHeight" 64 9), (tk .punct "(" 64 21), (tk .identifier "x" 64 22), (tk .punct ")" 64 23)]) :: ((SNode.stmt 66 [(tk .keyword "return" 66 9), (tk .identifier "x" 66 16)]) :: [])))))))) :: ((SNode.node .fn "getBalance" [(tk .keyword "int" 51 5), (tk .identifier "getBalance" 51 9), (tk .punct "(" 51 19), (tk .keyword "const" 51 20), (tk .identifier "std" 51 26), (tk .op "::" 51 29), (tk .identifier "shared_ptr" 51 31), (tk .op "<" 51 41), (tk .identifier "TreeNode" 51 42), (tk .op "<" 51 50), (tk .identifier "T" 51 51), (tk .op ">>" 51 52), (tk .op "&" 51 54), (tk .identifier "node" 51 56), (tk .punct ")" 51 60), (tk .keyword "const" 51 62)] 51 53 ((SNode.stmt 52 [(tk .keyword "return" 52 9), (tk .identifier "node" 52 16), (tk .op "?" 52 21), (tk .identifier "getHeight" 52 23), (tk .punct "(" 52 32), (tk .identifier "node" 52 33), (tk .op "->" 52 37), (tk .identifier "left" 52 39), (tk .punct ")" 52 43), (tk .op "-" 52 45), (tk .identifier "getHeight" 52 47), (tk .punct "(" 52 56), (tk .identifier "node" 52 57), (tk .op "->" 52 61), (tk .identifier "right" 52 63), (tk .punct ")" 52 68), (tk .op ":" 52 70), (tk .numLit "0" 52 72)]) :: [])) :: ((SNode.node .fn "updateHeight" [(tk .keyword "void" 44 5), (tk .identifier "updateHeight" 44 10), (tk .punct "(" 44 22), (tk .identifier "std" 44 23), (tk .op "::" 44 26), (tk .identifier "shared_ptr" 44 28), (tk .op "<" 44 38), (tk .identifier "TreeNode" 44 39), (tk .op "<" 44 47), (tk .identifier "T" 44 48), (tk .op ">>" 44 49), (tk .op "&" 44 51), (tk .identifier "node" 44 53), (tk .punct ")" 44 57)] 44 48 ((SNode.node .blk "" [(tk .keyword "if" 45 9), (tk .punct "(" 45 12), (tk .identifier "node" 45 13), (tk .punct ")" 45 17)] 45 47 ((SNode.stmt 46 [(tk .identifier "node" 46 13), (tk .op "->" 46 17), (tk .identifier "height" 46 19), (tk .op "=" 46 26), (tk .numLit "1" 46 28), (tk .op "+" 46 30), (tk .identifier "std" 46 32), (tk .op "::" 46 35), (tk .identifier "max" 46 37), (tk .punct "(" 46 40), (tk .identifier "getHeight" 46 41), (tk .punct "(" 46 50), (tk .identifier "node" 46 51), (tk .op "->" 46 55), (tk .identifier "left" 46 57), (tk .punct ")" 46 61), (tk .punct "," 46 62), (tk .identifier "getHeight" 46 64), (tk .punct "(" 46 73), (tk .identifier "node" 46 74), (tk .op "->" 46 78), (tk .identifier "right" 46 80), (tk .punct ")" 46 85), (tk .punct ")" 46 86)]) :: [])) :: [])) :: ((SNode.node .fn "getHeight" [(tk .keyword "int" 39 5), (tk .identifier "getHeight" 39 9), (tk .punct "(" 39 18), (tk .keyword "const" 39 19), (tk .identifier "std" 39 25), (tk .op "::" 39 28), (tk .identifier "shared_ptr" 39 30), (tk .op "<" 39 40), (tk .identifier "TreeNode" 39 41), (tk .op "<" 39 49), (tk .identifier "T" 39 50), (tk .op ">>" 39 51), (tk .op "&" 39 53), (tk .identifier "node" 39 55), (tk .punct ")" 39 59), (tk .keyword "const" 39 61)] 39 41 ((SNode.stmt 40 [(tk .keyword "return" 40 9), (tk .identifier "node" 40 16), (tk .op "?" 40 21), (tk .identifier "node" 40 23), (tk .op "->" 40 27), (tk .identifier "height" 40 29), (tk .op ":" 40 36), (tk .numLit "0" 40 38)]) :: [])) :: ((SNode.stmt 36 [(tk .identifier "Compare" 36 5), (tk .identifier "comparator" 36 13)]) :: ((SNode.stmt 35 [(tk .identifier "size_t" 35 5), (tk .identifier "tree_size" 35 12)]) :: ((SNode.stmt 33 [(tk .keyword "private" 33 1), (tk .op ":" 33 8), (tk .identifier "std" 34 5), (tk .op "::" 34 8), (tk .identifier "shared_ptr" 34 10), (tk .op "<" 34 20), (tk .identifier "TreeNode" 34 21), (tk .op "<" 34 29), (tk .identifier "T" 34 30), (tk .op ">>" 34 31), (tk .identifier "root" 34 34)]) :: []))))))))

def bstSt1_f1 : PFrame :=
  PFrame.mk .nsp "DataStructures" [(tk .keyword "namespace" 14 1), (tk .identifier "DataStructures" 14 11)] 14 ((SNode.node .cls "TreeNode" [(tk .keyword "template" 17 1), (tk .op "<" 17 9), (tk .keyword "typename" 17 10), (tk .identifier "T" 17 19), (tk .op ">" 17 20), (tk .keyword "struct" 18 1), (tk .identifier "TreeNode" 18 8)] 17 29 ((SNode.stmt 19 [(tk .identifier "T" 19 5), (tk .identifier "data" 19 7)]) :: ((SNode.stmt 20 [(tk .identifier "std" 20 5), (tk .op "::" 20 8), (tk .identifier "shared_ptr" 20 10), (tk .op "<" 20 20), (tk .identifier "TreeNode" 20 21), (tk .op "<" 20 29), (tk .identifier "T" 20 30), (tk .op ">>" 20 31), (tk .identifier "left" 20 34)]) :: ((SNode.stmt 21 [(tk .identifier "std" 21 5), (tk .op "::" 21 8), (tk .identifier "shared_ptr" 21 10), (tk .op "<" 21 20), (tk .identifier "TreeNode" 21 21), (tk .op "<" 21 29), (tk .identifier "T" 21 30), (tk .op ">>" 21 31), (tk .identifier "right" 21 34)]) :: ((SNode.stmt 22 [(tk .keyword "int" 22 5), (tk .identifier "height" 22 9)]) :: ((SNode.node .fn "TreeNode" [(tk .identifier "TreeNode" 24 5), (tk .punct "(" 24 13), (tk .keyword "const" 24 14), (tk .identifier "T" 24 20), (tk .op "&" 24 21), (tk .identifier "value" 24 23), (tk .punct ")" 24 28), (tk .op ":" 25 9), (tk .identifier "data" 25 11), (tk .punct "(" 25 15), (tk .identifier "value" 25 16), (tk .punct ")" 25 21), (tk .punct "," 25 22), (tk .identifier "left" 25 24), (tk .punct "(" 25 28), (tk .keyword "nullptr" 25 29), (tk .punct ")" 25 36), (tk .punct "," 25 37), (tk .identifier "right" 25 39), (tk .punct "(" 25 44), (tk .keyword "nullptr" 25 45), (tk .punct ")" 25 52), (tk .punct "," 25 53), (tk .identifier "height" 25 55), (tk .punct "(" 25 61), (tk .numLit "1" 25 62), (tk .punct ")" 25 63)] 24 25 []) :: ((SNode.node .fn "TreeNode" [(tk .identifier "TreeNode" 27 5), (tk .punct "(" 27 13), (tk .identifier "T" 27 14), (tk .op "&&" 27 15), (tk .identifier "value" 27 18), (tk .punct ")" 27 23), (tk .op ":" 28 9), (tk .identifier "data" 28 11), (tk .punct "(" 28 15), (tk .identifier "std" 28 16), (tk .op "::" 28 19), (tk .identifier "move" 28 21), (tk .punct "(" 28 25), (tk .identifier "value" 28 26), (tk .punct ")" 28 31), (tk .punct ")" 28 32), (tk .punct "," 28 33), (tk .identifier "left" 28 35), (tk .punct "(" 28 39), (tk .keyword "nullptr" 28 40), (tk .punct ")" 28 47), (tk .punct "," 28 48), (tk .identifier "right" 28 50), (tk .punct "(" 28 55), (tk .keyword "nullptr" 28 56), (tk .punct ")" 28 63), (tk .punct "," 28 64), (tk .identifier "height" 28 66), (tk .punct "(" 28 72), (tk .numLit "1" 28 73), (tk .punct ")" 28 74)] 27 28 []) :: []))))))) :: [])

def bstSt1_f2 : PFrame :=
  PFrame.mk .file "" [] 1 []

def bstSt1 : PState :=
  PState.mk bstSt1_f0 [bstSt1_f1, bstSt1_f2] [] 0 none [(SDiag.mk 29 "semicolon after type declaration" "inserted missing semicolon")] 81

def bstSt2_f0 : PFrame :=
  PFrame.mk .cls "BinarySearchTree" [(tk .keyword "template" 31 1), (tk .op "<" 31 9), (tk .keyword "typename" 31 10), (tk .identifier "T" 31 19), (tk .punct "," 31 20), (tk .keyword "typename" 31 22), (tk .identifier "Compare" 31 31), (tk .op "=" 31 39), (tk .identifier "std" 31 41), (tk .op "::" 31 44), (tk .identifier "less" 31 46), (tk .op "<" 31 50), (tk .identifier "T" 31 51), (tk .op ">>" 31 52), (tk .keyword "class" 32 1), (tk .identifier "BinarySearchTree" 32 7)] 31 ((SNode.node .fn "findMin" [(tk .identifier "std" 130 5), (tk .op "::" 130 8), (tk .identifier "shared_ptr" 130 10), (tk .op "<" 130 20), (tk .identifier "TreeNode" 130 21), (tk .op "<" 130 29), (tk .identifier "T" 130 30), (tk .op ">>" 130 31), (tk .identifier "findMin" 130 34), (tk .punct "(" 130 41), (tk .identifier "std" 130 42), (tk .op "::" 130 45), (tk .identifier "shared_ptr" 130 47), (tk .op "<" 130 57), (tk .identifier "TreeNode" 130 58), (tk .op "<" 130 66), (tk .identifier "T" 130 67), (tk .op ">>" 130 68), (tk .op "&" 130 70), (tk .identifier "node" 130 72), (tk .punct ")" 130 76), (tk .keyword "const" 130 78)] 130 135 ((SNode.node .blk "" [(tk .keyword "while" 131 9), (tk .punct "(" 131 15), (tk .identifier "node" 131 16), (tk .op "&&" 131 21), (tk .identifier "node" 131 24), (tk .op "->" 131 28), (tk .identifier "left" 131 30), (tk .punct ")" 131 34)] 131 133 ((SNode.stmt 132 [(tk .identifier "node" 132 13), (tk .op "=" 132 18), (tk .identifier "node" 132 20), (tk .op "->" 132 24), (tk .identifier "left" 132 26)]) :: [])) :: ((SNode.stmt 134 [(tk .keyword "return" 134 9), (tk .identifier "node" 134 16)]) :: []))) :: (SNode.node .fn "insertHelper" [(tk .identifier "std" 84 5), (tk .op "::" 84 8), (tk .identifier "shared_ptr" 84 10), (tk .op "<" 84 20), (tk .identifier "TreeNode" 84 21), (tk .op "<" 84 29), (tk .identifier "T" 84 30), (tk .op ">>" 84 31), (tk .identifier "insertHelper" 84 34), (tk .punct "(" 84 46), (tk .identifier "std" 84 47), (tk .op "::" 84 50), (tk .identifier "shared_ptr" 84 52), (tk .op "<" 84 62), (tk .identifier "TreeNode" 84 63), (tk .op "<" 84 71), (tk .identifier "T" 84 72), (tk .op ">>" 84 73), (tk .op "&" 84 75), (tk .identifier "node" 84 77), (tk .punct "," 84 81), (tk .keyword "const" 85 49), (tk .identifier "T" 85 55), (tk .op "&" 85 56), (tk .identifier "value" 85 58), (tk .punct ")" 85 63)] 84 127 ((SNode.node .blk "" [(tk .keyword "if" 86 9), (tk .punct "(" 86 12), (tk .op "!" 86 13), (tk .identifier "node" 86 14), (tk .punct ")" 86 18)] 86 89 ((SNode.stmt 87 [(tk .identifier "tree_size" 87 13), (tk .op "++" 87 22)]) :: ((SNode.stmt 88 [(tk .keyword "return" 88 13), (tk .identifier "std" 88 20), (tk .op "::" 88 23), (tk .identifier "make_shared" 88 25), (tk .op "<" 88 36), (tk .identifier "TreeNode" 88 37), (tk .op "<" 88 45), (tk .identifier "T" 88 46), (tk .op ">>" 88 47), (tk .punct "(" 88 49), (tk .identifier "value" 88 50), (tk .punct ")" 88 55)]) :: []))) :: ((SNode.node .blk "" [(tk .keyword "if" 91 9), (tk .punct "(" 91 12), (tk .identifier "comparator" 91 13), (tk .punct "(" 91 23), (tk .identifier "value" 91 24), (tk .punct "," 91 29), (tk .identifier "node" 91 31), (tk .op "->" 91 35), (tk .identifier "data" 91 37), (tk .punct ")" 91 41), (tk .punct ")" 91 42)] 91 93 ((SNode.stmt 92 [(tk .identifier "node" 92 13), (tk .op "->" 92 17), (tk .identifier "left" 92 19), (tk .op "=" 92 24), (tk .identifier "insertHelper" 92 26), (tk .punct "(" 92 38), (tk .identifier "node" 92 39), (tk .op "->" 92 43), (tk .identifier "left" 92 45), (tk .punct "," 92 49), (tk .identifier "value" 92 51), (tk .punct ")" 92 56)]) :: [])) :: ((SNode.node .blk "" [(tk .keyword "else" 93 11), (tk .keyword "if" 93 16), (tk .punct "(" 93 19), (tk .identifier "comparator" 93 20), (tk .punct "(" 93 30), (tk .identifier "node" 93 31), (tk .op "->" 93 35), (tk .identifier "data" 93 37), (tk .punct "," 93 41), (tk .identifier "value" 93 43), (tk .punct ")" 93 48), (tk .punct ")" 93 49)] 93 95 ((SNode.stmt 94 [(tk .identifier "node" 94 13), (tk .op "->" 94 17), (tk .identifier "right" 94 19), (tk .op "=" 94 25), (tk .identifier "insertHelper" 94 27), (tk .punct "(" 94 39), (tk .identifier "node" 94 40), (tk .op "->" 94 44), (tk .identifier "right" 94 46), (tk .punct "," 94 51), (tk .identifier "value" 94 53), (tk .punct ")" 94 58)]) :: [])) :: ((SNode.node .blk "" [(tk .keyword "else" 95 11)] 95 98 ((SNode.stmt 96 [(tk .identifier "std" 96 13), (tk .op "::" 96 16), (tk .identifier "cerr" 96 18), (tk .op "<" 96 23), (tk .strLit "Duplicate value detected: " 96 25), (tk .op "<<" 96 54), (tk .identifier "value" 96 57), (tk .op "<<" 96 63), (tk .identifier "std" 96 66), (tk .op "::" 96 69), (tk .identifier "endl" 96 71)]) :: ((SNode.stmt 97 [(tk .keyword "return" 97 13), (tk .identifier "node" 97 20)]) :: []))) :: ((SNode.stmt 100 [(tk .identifier "updateHeight" 100 9), (tk .punct "(" 100 21), (tk .identifier "node" 100 22), (tk .punct ")" 100 26)]) :: ((SNode.stmt 102 [(tk .keyword "int" 102 9), (tk .identifier "balance" 102 13), (tk .op "=" 102 21), (tk .identifier "getBalance" 102 23), (tk .punct "(" 102 33), (tk .identifier "node" 102 34), (tk .punct ")" 102 38)]) :: ((SNode.node .blk "" [(tk .keyword "if" 105 9), (tk .punct "(" 105 12), (tk .identifier "balance" 105 13), (tk .op ">" 105 21), (tk .numLit "1" 105 23), (tk .op "&&" 105 25), (tk .identifier "comparator" 105 28), (tk .punct "(" 105 38), (tk .identifier "value" 105 39), (tk .punct "," 105 44), (tk .identifier "node" 105 46), (tk .op "->" 105 50), (tk .identifier "left" 105 52), (tk .op "->" 105 56), (tk .identifier "data" 105 58), (tk .punct ")" 105 62), (tk .punct ")" 105 63)] 105 107 ((SNode.stmt 106 [(tk .keyword "return" 106 13), (tk .identifier "rotateRight" 106 20), (tk .punct "(" 106 31), (tk .identifier "node" 106 32), (tk .punct ")" 106 36)]) :: [])) :: ((SNode.node .blk "" [(tk .keyword "if" 110 9), (tk .punct "(" 110 12), (tk .identifier "balance" 110 13), (tk .op "<" 110 21), (tk .op "-" 110 23), (tk .numLit "1" 110 24), (tk .op "&&" 110 26), (tk .identifier "comparator" 110 29), (tk .punct "(" 110 39), (tk .identifier "node" 110 40), (tk .op "->" 110 44), (tk .identifier "right" 110 46), (tk .op "->" 110 51), (tk .identifier "data" 110 53), (tk .punct "," 110 57), (tk .identifier "value" 110 59), (tk .punct ")" 110 64), (tk .punct ")" 110 65)] 110 112 ((SNode.stmt 111 [(tk .keyword "return" 111 13), (tk .identifier "rotateLeft" 111 20), (tk .punct "(" 111 30), (tk .identifier "node" 111 31), (tk .punct ")" 111 35)]) :: [])) :: ((SNode.node .blk "" [(tk .keyword "if" 115 9), (tk .punct "(" 115 12), (tk .identifier "balance" 115 13), (tk .op ">" 115 21), (tk .numLit "1" 115 23), (tk .op "&&" 115 25), (tk .identifier "comparator" 115 28), (tk .punct "(" 115 38), (tk .identifier "node" 115 39), (tk .op "->" 115 43), (tk .identifier "left" 115 45), (tk .op "->" 115 49), (tk .identifier "data" 115 51), (tk .punct "," 115 55), (tk .identifier "value" 115 57), (tk .punct ")" 115 62), (tk .punct ")" 115 63)] 115 118 ((SNode.stmt 116 [(tk .identifier "node" 116 13), (tk .op "->" 116 17), (tk .identifier "left" 116 19), (tk .op "=" 116 24), (tk .identifier "rotateLeft" 116 26), (tk .punct "(" 116 36), (tk .identifier "node" 116 37), (tk .op "->" 116 41), (tk .identifier "left" 116 43), (tk .punct ")" 116 47)]) :: ((SNode.stmt 117 [(tk .keyword "return" 117 13), (tk .identifier "rotateRight" 117 20), (tk .punct "(" 117 31), (tk .identifier "node" 117 32), (tk .punct ")" 117 36)]) :: []))) :: ((SNode.node .blk "" [(tk .keyword "if" 121 9), (tk .punct "(" 121 12), (tk .identifier "balance" 121 13), (tk .op "<" 121 21), (tk .op "-" 121 23), (tk .numLit "1" 121 24), (tk .op "&&" 121 26), (tk .identifier "comparator" 121 29), (tk .punct "(" 121 39), (tk .identifier "value" 121 40), (tk .punct "," 121 45), (tk .identifier "node" 121 47), (tk .op "->" 121 51), (tk .identifier "right" 121 53), (tk .op "->" 121 58), (tk .identifier "data" 121 60), (tk .punct ")" 121 64), (tk .punct ")" 121 65)] 121 124 ((SNode.stmt 122 [(tk .identifier "node" 122 13), (tk .op "->" 122 17), (tk .identifier "right" 122 19), (tk .op "=" 122 25), (tk .identifier "rotateRight" 122 27), (tk .punct "(" 122 38), (tk .identifier "node" 122 39), (tk .op "->" 122 43), (tk .identifier "right" 122 45), (tk .punct ")" 122 50)]) :: ((SNode.stmt 123 [(tk .keyword "return" 123 13), (tk .identifier "rotateLeft" 123 20), (tk .punct "(" 123 30), (tk .identifier "node" 123 31), (tk .punct ")" 123 35)]) :: []))) :: ((SNode.stmt 126 [(tk .keyword "return" 126 9), (tk .identifier "node" 126 16)]) :: [])))))))))))) :: bstSt1_f0.childrenRev)

def bstSt2_f1 : PFrame :=
  PFrame.mk .nsp "DataStructures" [(tk .keyword "namespace" 14 1), (tk .identifier "DataStructures" 14 11)] 14 (bstSt1_f1.childrenRev)

def bstSt2_f2 : PFrame :=
  PFrame.mk .file "" [] 1 (bstSt1_f2.childrenRev)

def bstSt2 : PState :=
  PState.mk bstSt2_f0 [bstSt2_f1, bstSt2_f2] [] 0 none [(SDiag.mk 29 "semicolon after type declaration" "inserted missing semicolon")] 135

def bstSt3_f0 : PFrame :=
  PFrame.mk .fn "deleteHelper" [(tk .identifier "std" 138 5), (tk .op "::" 138 8), (tk .identifier "shared_ptr" 138 10), (tk .op "<" 138 20), (tk .identifier "TreeNode" 138 21), (tk .op "<" 138 29), (tk .identifier "T" 138 30), (tk .op ">>" 138 31), (tk .identifier "deleteHelper" 138 34), (tk .punct "(" 138 46), (tk .identifier "std" 138 47), (tk .op "::" 138 50), (tk .identifier "shared_ptr" 138 52), (tk .op "<" 138 62), (tk .identifier "TreeNode" 138 63), (tk .op "<" 138 71), (tk .identifier "T" 138 72), (tk .op ">>" 138 73), (tk .op "&" 138 75), (tk .identifier "node" 138 77), (tk .punct "," 138 81), (tk .keyword "const" 139 49), (tk .identifier "T" 139 55), (tk .op "&" 139 56), (tk .identifier "value" 139 58), (tk .punct ")" 139 63)] 138 ((SNode.node .blk "" [(tk .keyword "else" 148 11)] 148 192 ((SNode.node .blk "" [(tk .keyword "if" 149 13), (tk .punct "(" 149 16), (tk .op "!" 149 17), (tk .identifier "node" 149 18), (tk .op "->" 149 22), (tk .identifier "left" 149 24), (tk .op "||" 149 29), (tk .op "!" 149 32), (tk .identifier "node" 149 33), (tk .op "->" 149 37), (tk .identifier "right" 149 39), (tk .punct ")" 149 44)] 149 157 ((SNode.stmt 150 [(tk .keyword "auto" 150 17), (tk .identifier "temp" 150 22), (tk .op "=" 150 27), (tk .identifier "node" 150 29), (tk .op "->" 150 33), (tk .identifier "left" 150 35), (tk .op "?" 150 40), (tk .identifier "node" 150 42), (tk .op "->" 150 46), (tk .identifier "left" 150 48), (tk .op ":" 150 53), (tk .identifier "node" 150 55), (tk .op "->" 150 59), (tk .identifier "right" 150 61)]) :: ((SNode.node .blk "" [(tk .keyword "if" 151 17), (tk .punct "(" 151 20), (tk .op "!" 151 21), (tk .identifier "temp" 151 22), (tk .punct ")" 151 26)] 151 153 ((SNode.stmt 152 [(tk .identifier "node" 152 21), (tk .op "=" 152 26), (tk .keyword "nullptr" 152 28)]) :: [])) :: ((SNode.node .blk "" [(tk .keyword "else" 153 19)] 153 155 ((SNode.stmt 154 [(tk .identifier "node" 154 21), (tk .op "=" 154 26), (tk .identifier "temp" 154 28)]) :: [])) :: ((SNode.stmt 156 [(tk .identifier "tree_size" 156 17), (tk .op "--" 156 26)]) :: []))))) :: ((SNode.node .blk "" [(tk .keyword "else" 157 15)] 157 161 ((SNode.stmt 158 [(tk .keyword "auto" 158 17), (tk .identifier "temp" 158 22), (tk .op "=" 158 27), (tk .identifier "findMin" 158 29), (tk .punct "(" 158 36), (tk .identifier "node" 158 37), (tk .op "->" 158 41), (tk .identifier "right" 158 43), (tk .punct ")" 158 48)]) :: ((SNode.stmt 159 [(tk .identifier "node" 159 17), (tk .op "->" 159 21), (tk .identifier "data" 159 23), (tk .op "=" 159 28), (tk .identifier "temp" 159 30), (tk .op "->" 159 34), (tk .identifier "data" 159 36)]) :: ((SNode.stmt 160 [(tk .identifier "node" 160 17), (tk .op "->" 160 21), (tk .identifier "right" 160 23), (tk .op "=" 160 29), (tk .identifier "deleteHelper" 160 31), (tk .punct "(" 160 43), (tk .identifier "node" 160 44), (tk .op "->" 160 48), (tk .identifier "right" 160 50), (tk .punct "," 160 55), (tk .identifier "temp" 160 57), (tk .op "->" 160 61), (tk .identifier "data" 160 63), (tk .punct ")" 160 67)]) :: [])))) :: ((SNode.node .blk "" [(tk .keyword "if" 165 9), (tk .punct "(" 165 12), (tk .op "!" 165 13), (tk .identifier "node" 165 14), (tk .punct ")" 165 18)] 165 167 ((SNode.stmt 166 [(tk .keyword "return" 166 13), (tk .identifier "node" 166 20)]) :: [])) :: ((SNode.stmt 169 [(tk .identifier "updateHeight" 169 9), (tk .punct "(" 169 21), (tk .identifier "node" 169 22), (tk .punct ")" 169 26)]) :: ((SNode.stmt 171 [(tk .keyword "int" 171 9), (tk .identifier "balance" 171 13), (tk .op "=" 171 21), (tk .identifier "getBalance" 171 23), (tk .punct "(" 171 33), (tk .identifier "node" 171 34), (tk .punct ")" 171 38)]) :: ((SNode.node .blk "" [(tk .keyword "if" 173 9), (tk .punct "(" 173 12), (tk .identifier "balance" 173 13), (tk .op ">" 173 21), (tk .numLit "1" 173 23), (tk .op "&&" 173 25), (tk .identifier "getBalance" 173 28), (tk .punct "(" 173 38), (tk .identifier "node" 173 39), (tk .op "->" 173 43), (tk .identifier "left" 173 45), (tk .punct ")" 173 49), (tk .op ">=" 173 51), (tk .numLit "0" 173 54), (tk .punct ")" 173 55)] 173 175 ((SNode.stmt 174 [(tk .keyword "return" 174 13), (tk .identifier "rotateRight" 174 20), (tk .punct "(" 174 31), (tk .identifier "node" 174 32), (tk .punct ")" 174 36)]) :: [])) :: ((SNode.node .blk "" [(tk .keyword "if" 177 9), (tk .punct "(" 177 12), (tk .identifier "balance" 177 13), (tk .op ">" 177 21), (tk .numLit "1" 177 23), (tk .op "&&" 177 25), (tk .identifier "getBalance" 177 28), (tk .punct "(" 177 38), (tk .identifier "node" 177 39), (tk .op "->" 177 43), (tk .identifier "left" 177 45), (tk .punct ")" 177 49), (tk .op "<" 177 51), (tk .numLit "0" 177 53), (tk .punct ")" 177 54)] 177 180 ((SNode.stmt 178 [(tk .identifier "node" 178 13), (tk .op "->" 178 17), (tk .identifier "left" 178 19), (tk .op "=" 178 24), (tk .identifier "rotateLeft" 178 26), (tk .punct "(" 178 36), (tk .identifier "node" 178 37), (tk .op "->" 178 41), (tk .identifier "left" 178 43), (tk .punct ")" 178 47)]) :: ((SNode.stmt 179 [(tk .keyword "return" 179 13), (tk .identifier "rotateRight" 179 20), (tk .punct "(" 179 31), (tk .identifier "node" 179 32), (tk .punct ")" 179 36)]) :: []))) :: ((SNode.node .blk "" [(tk .keyword "if" 182 9), (tk .punct "(" 182 12), (tk .identifier "balance" 182 13), (tk .op "<" 182 21), (tk .op "-" 182 23), (tk .numLit "1" 182 24), (tk .op "&&" 182 26), (tk .identifier "getBalance" 182 29), (tk .punct "(" 182 39), (tk .identifier "node" 182 40), (tk .op "->" 182 44), (tk .identifier "right" 182 46), (tk .punct ")" 182 51), (tk .op "<=" 182 53), (tk .numLit "0" 182 56), (tk .punct ")" 182 57)] 182 184 ((SNode.stmt 183 [(tk .keyword "return" 183 13), (tk .identifier "rotateLeft" 183 20), (tk .punct "(" 183 30), (tk .identifier "node" 183 31), (tk .punct ")" 183 35)]) :: [])) :: ((SNode.node .blk "" [(tk .keyword "if" 186 9), (tk .punct "(" 186 12), (tk .identifier "balance" 186 13), (tk .op "<" 186 21), (tk .op "-" 186 23), (tk .numLit "1" 186 24), (tk .op "&&" 186 26), (tk .identifier "getBalance" 186 29), (tk .punct "(" 186 39), (tk .identifier "node" 186 40), (tk .op "->" 186 44), (tk .identifier "right" 186 46), (tk .punct ")" 186 51), (tk .op ">" 186 53), (tk .numLit "0" 186 55), (tk .punct ")" 186 56)] 186 189 ((SNode.stmt 187 [(tk .identifier "node" 187 13), (tk .op "->" 187 17), (tk .identifier "right" 187 19), (tk .op "=" 187 25), (tk .identifier "rotateRight" 187 27), (tk .punct "(" 187 38), (tk .identifier "node" 187 39), (tk .op "->" 187 43), (tk .identifier "right" 187 45), (tk .punct ")" 187 50)]) :: ((SNode.stmt 188 [(tk .keyword "return" 188 13), (tk .identifier "rotateLeft" 188 20), (tk .punct "(" 188 30), (tk .identifier "node" 188 31), (tk .punct ")" 188 35)]) :: []))) :: ((SNode.stmt 191 [(tk .keyword "return" 191 9), (tk .identifier "node" 191 16)]) :: []))))))))))) :: ((SNode.node .blk "" [(tk .keyword "else" 146 11), (tk .keyword "if" 146 16), (tk .punct "(" 146 19), (tk .identifier "comparator" 146 20), (tk .punct "(" 146 30), (tk .identifier "node" 146 31), (tk .op "->" 146 35), (tk .identifier "data" 146 37), (tk .punct "," 146 41), (tk .identifier "value" 146 43), (tk .punct ")" 146 48), (tk .punct ")" 146 49)] 146 148 ((SNode.stmt 147 [(tk .identifier "node" 147 13), (tk .op "->" 147 17), (tk .identifier "right" 147 19), (tk .op "=" 147 25), (tk .identifier "deleteHelper" 147 27), (tk .punct "(" 147 39), (tk .identifier "node" 147 40), (tk .op "->" 147 44), (tk .identifier "right" 147 46), (tk .punct "," 147 51), (tk .identifier "value" 147 53), (tk .punct ")" 147 58)]) :: [])) :: ((SNode.node .blk "" [(tk .keyword "if" 144 9), (tk .punct "(" 144 12), (tk .identifier "comparator" 144 13), (tk .punct "(" 144 23), (tk .identifier "value" 144 24), (tk .punct "," 144 29), (tk .identifier "node" 144 31), (tk .op "->" 144 35), (tk .identifier "data" 144 37), (tk .punct ")" 144 41), (tk .punct ")" 144 42)] 144 146 ((SNode.stmt 145 [(tk .identifier "node" 145 13), (tk .op "->" 145 17), (tk .identifier "left" 145 19), (tk .op "=" 145 24), (tk .identifier "deleteHelper" 145 26), (tk .punct "(" 145 38), (tk .identifier "node" 145 39), (tk .op "->" 145 43), (tk .identifier "left" 145 45), (tk .punct "," 145 49), (tk .identifier "value" 145 51), (tk .punct ")" 145 56)]) :: [])) :: ((SNode.node .blk "" [(tk .keyword "if" 140 9), (tk .punct "(" 140 12), (tk .op "!" 140 13), (tk .identifier "node" 140 14), (tk .punct ")" 140 18)] 140 142 ((SNode.stmt 141 [(tk .keyword "return" 141 13), (tk .identifier "node" 141 20)]) :: [])) :: []))))

def bstSt3_f1 : PFrame :=
  PFrame.mk .cls "BinarySearchTree" [(tk .keyword "template" 31 1), (tk .op "<" 31 9), (tk .keyword "typename" 31 10), (tk .identifier "T" 31 19), (tk .punct "," 31 20), (tk .keyword "typename" 31 22), (tk .identifier "Compare" 31 31), (tk .op "=" 31 39), (tk .identifier "std" 31 41), (tk .op "::" 31 44), (tk .identifier "less" 31 46), (tk .op "<" 31 50), (tk .identifier "T" 31 51), (tk .op ">>" 31 52), (tk .keyword "class" 32 1), (tk .identifier "BinarySearchTree" 32 7)] 31 (bstSt2_f0.childrenRev)

def bstSt3_f2 : PFrame :=
  PFrame.mk .nsp "DataStructures" [(tk .keyword "namespace" 14 1), (tk .identifier "DataStructures" 14 11)] 14 (bstSt2_f1.childrenRev)

def bstSt3_f3 : PFrame :=
  PFrame.mk .file "" [] 1 (bstSt2_f2.childrenRev)

def bstSt3 : PState :=
  PState.mk bstSt3_f0 [bstSt3_f1, bstSt3_f2, bstSt3_f3] [] 0 none [(SDiag.mk 29 "semicolon after type declaration" "inserted missing semicolon")] 192

def bstSt4_f0 : PFrame :=
  PFrame.mk .cls "BinarySearchTree" [(tk .keyword "template" 31 1), (tk .op "<" 31 9), (tk .keyword "typename" 31 10), (tk .identifier "T" 31 19), (tk .punct "," 31 20), (tk .keyword "typename" 31 22), (tk .identifier "Compare" 31 31), (tk .op "=" 31 39), (tk .identifier "std" 31 41), (tk .op "::" 31 44), (tk .identifier "less" 31 46), (tk .op "<" 31 50), (tk .identifier "T" 31 51), (tk .op ">>" 31 52), (tk .keyword "class" 32 1), (tk .identifier "BinarySearchTree" 32 7)] 31 ((SNode.node .fn "size" [(tk .identifier "size_t" 241 5), (tk .identifier "size" 241 12), (tk .punct "(" 241 16), (tk .punct ")" 241 17), (tk .keyword "const" 241 19)] 241 243 ((SNode.stmt 242 [(tk .keyword "return" 242 9), (tk .identifier "tree_size" 242 16)]) :: [])) :: (SNode.node .fn "contains" [(tk .keyword "bool" 237 5), (tk .identifier "contains" 237 10), (tk .punct "(" 237 18), (tk .keyword "const" 237 19), (tk .identifier "T" 237 25), (tk .op "&" 237 26), (tk .identifier "value" 237 28), (tk .punct ")" 237 33), (tk .keyword "const" 237 35)] 237 239 ((SNode.stmt 238 [(tk .keyword "return" 238 9), (tk .identifier "searchHelper" 238 16), (tk .punct "(" 238 28), (tk .identifier "root" 238 29), (tk .punct "," 238 33), (tk .identifier "value" 238 35), (tk .punct ")" 238 40)]) :: [])) :: (SNode.node .fn "remove" [(tk .keyword "bool" 231 5), (tk .identifier "remove" 231 10), (tk .punct "(" 231 16), (tk .keyword "const" 231 17), (tk .identifier "T" 231 23), (tk .op "&" 231 24), (tk .identifier "value" 231 26), (tk .punct ")" 231 31)] 231 235 ((SNode.stmt 232 [(tk .identifier "size_t" 232 9), (tk .identifier "old_size" 232 16), (tk .op "=" 232 25), (tk .identifier "tree_size" 232 27)]) :: ((SNode.stmt 233 [(tk .identifier "root" 233 9), (tk .op "=" 233 14), (tk .identifier "deleteHelper" 233 16), (tk .punct "(" 233 28), (tk .identifier "root" 233 29), (tk .punct "," 233 33), (tk .identifier "value" 233 35), (tk .punct ")" 233 40)]) :: ((SNode.stmt 234 [(tk .keyword "return" 234 9), (tk .identifier "old_size" 234 16), (tk .op "!=" 234 25), (tk .identifier "tree_size" 234 28)]) :: [])))) :: (SNode.node .fn "insert" [(tk .keyword "void" 227 5), (tk .identifier "insert" 227 10), (tk .punct "(" 227 16), (tk .identifier "T" 227 17), (tk .op "&&" 227 18), (tk .identifier "value" 227 21), (tk .punct ")" 227 26)] 227 229 ((SNode.stmt 228 [(tk .identifier "root" 228 9), (tk .op "=" 228 14), (tk .identifier "insertHelper" 228 16), (tk .punct "(" 228 28), (tk .identifier "root" 228 29), (tk .punct "," 228 33), (tk .identifier "std" 228 35), (tk .op "::" 228 38), (tk .identifier "move" 228 40), (tk .punct "(" 228 44), (tk .identifier "value" 228 45), (tk .punct ")" 228 50), (tk .punct ")" 228 51)]) :: [])) :: (SNode.node .fn "insert" [(tk .keyword "void" 223 5), (tk .identifier "insert" 223 10), (tk .punct "(" 223 16), (tk .keyword "const" 223 17), (tk .identifier "T" 223 23), (tk .op "&" 223 24), (tk .identifier "value" 223 26), (tk .punct ")" 223 31)] 223 225 ((SNode.stmt 224 [(tk .identifier "root" 224 9), (tk .op "=" 224 14), (tk .identifier "insertHelper" 224 16), (tk .punct "(" 224 28), (tk .identifier "root" 224 29), (tk .punct "," 224 33), (tk .identifier "value" 224 35), (tk .punct ")" 224 40)]) :: [])) :: (SNode.node .fn "BinarySearchTree" [(tk .keyword "explicit" 220 5), (tk .identifier "BinarySearchTree" 220 14), (tk .punct "(" 220 30), (tk .keyword "const" 220 31), (tk .identifier "Compare" 220 37), (tk .op "&" 220 44), (tk .identifier "comp" 220 46), (tk .punct ")" 220 50), (tk .op ":" 221 9), (tk .identifier "root" 221 11), (tk .punct "(" 221 15), (tk .keyword "nullptr" 221 16), (tk .punct ")" 221 23), (tk .punct "," 221 24), (tk .identifier "tree_size" 221 26), (tk .punct "(" 221 35), (tk .numLit "0" 221 36), (tk .punct ")" 221 37), (tk .punct "," 221 38), (tk .identifier "comparator" 221 40), (tk .punct "(" 221 50), (tk .identifier "comp" 221 51), (tk .punct ")" 221 55)] 220 221 []) :: (SNode.node .fn "BinarySearchTree" [(tk .keyword "public" 217 1), (tk .op ":" 217 7), (tk .identifier "BinarySearchTree" 218 5), (tk .punct "(" 218 21), (tk .punct ")" 218 22), (tk .op ":" 218 24), (tk .identifier "root" 218 26), (tk .punct "(" 218 30), (tk .keyword "nullptr" 218 31), (tk .punct ")" 218 38), (tk .punct "," 218 39), (tk .identifier "tree_size" 218 41), (tk .punct "(" 218 50), (tk .numLit "0" 218 51), (tk .punct ")" 218 52), (tk .punct "," 218 53), (tk .identifier "comparator" 218 55), (tk .punct "(" 218 65), (tk .identifier "Compare" 218 66), (tk .punct "(" 218 73), (tk .punct ")" 218 74), (tk .punct ")" 218 75)] 217 218 []) :: (SNode.node .fn "inorderHelper" [(tk .keyword "void" 208 5), (tk .identifier "inorderHelper" 208 10), (tk .punct "(" 208 23), (tk .keyword "const" 208 24), (tk .identifier "std" 208 30), (tk .op "::" 208 33), (tk .identifier "shared_ptr" 208 35), (tk .op "<" 208 45), (tk .identifier "TreeNode" 208 46), (tk .op "<" 208 54), (tk .identifier "T" 208 55), (tk .op ">>" 208 56), (tk .op "&" 208 58), (tk .identifier "node" 208 60), (tk .punct "," 208 64), (tk .identifier "std" 209 23), (tk .op "::" 209 26), (tk .identifier "vector" 209 28), (tk .op "<" 209 34), (tk .identifier "T" 209 35), (tk .op ">" 209 36), (tk .op "&" 209 37), (tk .identifier "result" 209 39), (tk .punct ")" 209 45), (tk .keyword "const" 209 47)] 208 215 ((SNode.node .blk "" [(tk .keyword "if" 210 9), (tk .punct "(" 210 12), (tk .identifier "node" 210 13), (tk .punct ")" 210 17)] 210 214 ((SNode.stmt 211 [(tk .identifier "inorderHelper" 211 13), (tk .punct "(" 211 26), (tk .identifier "node" 211 27), (tk .op "->" 211 31), (tk .identifier "left" 211 33), (tk .punct "," 211 37), (tk .identifier "result" 211 39), (tk .punct ")" 211 45)]) :: ((SNode.stmt 212 [(tk .identifier "result" 212 13), (tk .op "." 212 19), (tk .identifier "push_back" 212 20), (tk .punct "(" 212 29), (tk .identifier "node" 212 30), (tk .op "->" 212 34), (tk .identifier "data" 212 36), (tk .punct ")" 212 40)]) :: ((SNode.stmt 213 [(tk .identifier "inorderHelper" 213 13), (tk .punct "(" 213 26), (tk .identifier "node" 213 27), (tk .op "->" 213 31), (tk .identifier "right" 213 33), (tk .punct "," 213 38), (tk .identifier "result" 213 40), (tk .punct ")" 213 46)]) :: [])))) :: [])) :: (SNode.node .fn "searchHelper" [(tk .keyword "bool" 194 5), (tk .identifier "searchHelper" 194 10), (tk .punct "(" 194 22), (tk .keyword "const" 194 23), (tk .identifier "std" 194 29), (tk .op "::" 194 32), (tk .identifier "shared_ptr" 194 34), (tk .op "<" 194 44), (tk .identifier "TreeNode" 194 45), (tk .op "<" 194 53), (tk .identifier "T" 194 54), (tk .op ">>" 194 55), (tk .op "&" 194 57), (tk .identifier "node" 194 59), (tk .punct "," 194 63), (tk .keyword "const" 194 65), (tk .identifier "T" 194 71), (tk .op "&" 194 72), (tk .identifier "value" 194 74), (tk .punct ")" 194 79), (tk .keyword "const" 194 81)] 194 206 ((SNode.node .blk "" [(tk .keyword "if" 195 9), (tk .punct "(" 195 12), (tk .op "!" 195 13), (tk .identifier "node" 195 14), (tk .punct ")" 195 18)] 195 197 ((SNode.stmt 196 [(tk .keyword "return" 196 13), (tk .keyword "false" 196 20)]) :: [])) :: ((SNode.node .blk "" [(tk .keyword "if" 199 9), (tk .punct "(" 199 12), (tk .identifier "comparator" 199 13), (tk .punct "(" 199 23), (tk .identifier "value" 199 24), (tk .punct "," 199 29), (tk .identifier "node" 199 31), (tk .op "->" 199 35), (tk .identifier "data" 199 37), (tk .punct ")" 199 41), (tk .punct ")" 199 42)] 199 201 ((SNode.stmt 200 [(tk .keyword "return" 200 13), (tk .identifier "searchHelper" 200 20), (tk .punct "(" 200 32), (tk .identifier "node" 200 33), (tk .op "->" 200 37), (tk .identifier "left" 200 39), (tk .punct "," 200 43), (tk .identifier "value" 200 45), (tk .punct ")" 200 50)]) :: [])) :: ((SNode.node .blk "" [(tk .keyword "else" 201 11), (tk .keyword "if" 201 16), (tk .punct "(" 201 19), (tk .identifier "comparator" 201 20), (tk .punct "(" 201 30), (tk .identifier "node" 201 31), (tk .op "->" 201 35), (tk .identifier "data" 201 37), (tk .punct "," 201 41), (tk .identifier "value" 201 43), (tk .punct ")" 201 48), (tk .punct ")" 201 49)] 201 203 ((SNode.stmt 202 [(tk .keyword "return" 202 13), (tk .identifier "searchHelper" 202 20), (tk .punct "(" 202 32), (tk .identifier "node" 202 33), (tk .op "->" 202 37), (tk .identifier "right" 202 39), (tk .punct "," 202 44), (tk .identifier "value" 202 46), (tk .punct ")" 202 51)]) :: [])) :: ((SNode.stmt 205 [(tk .keyword "return" 205 9), (tk .keyword "true" 205 16)]) :: []))))) :: (SNode.node .fn "deleteHelper" [(tk .identifier "std" 138 5), (tk .op "::" 138 8), (tk .identifier "shared_ptr" 138 10), (tk .op "<" 138 20), (tk .identifier "TreeNode" 138 21), (tk .op "<" 138 29), (tk .identifier "T" 138 30), (tk .op ">>" 138 31), (tk .identifier "deleteHelper" 138 34), (tk .punct "(" 138 46), (tk .identifier "std" 138 47), (tk .op "::" 138 50), (tk .identifier "shared_ptr" 138 52), (tk .op "<" 138 62), (tk .identifier "TreeNode" 138 63), (tk .op "<" 138 71), (tk .identifier "T" 138 72), (tk .op ">>" 138 73), (tk .op "&" 138 75), (tk .identifier "node" 138 77), (tk .punct "," 138 81), (tk .keyword "const" 139 49), (tk .identifier "T" 139 55), (tk .op "&" 139 56), (tk .identifier "value" 139 58), (tk .punct ")" 139 63)] 138 194 ((SNode.node .blk "" [(tk .keyword "if" 140 9), (tk .punct "(" 140 12), (tk .op "!" 140 13), (tk .identifier "node" 140 14), (tk .punct ")" 140 18)] 140 142 ((SNode.stmt 141 [(tk .keyword "return" 141 13), (tk .identifier "node" 141 20)]) :: [])) :: ((SNode.node .blk "" [(tk .keyword "if" 144 9), (tk .punct "(" 144 12), (tk .identifier "comparator" 144 13), (tk .punct "(" 144 23), (tk .identifier "value" 144 24), (tk .punct "," 144 29), (tk .identifier "node" 144 31), (tk .op "->" 144 35), (tk .identifier "data" 144 37), (tk .punct ")" 144 41), (tk .punct ")" 144 42)] 144 146 ((SNode.stmt 145 [(tk .identifier "node" 145 13), (tk .op "->" 145 17), (tk .identifier "left" 145 19), (tk .op "=" 145 24), (tk .identifier "deleteHelper" 145 26), (tk .punct "(" 145 38), (tk .identifier "node" 145 39), (tk .op "->" 145 43), (tk .identifier "left" 145 45), (tk .punct "," 145 49), (tk .identifier "value" 145 51), (tk .punct ")" 145 56)]) :: [])) :: ((SNode.node .blk "" [(tk .keyword "else" 146 11), (tk .keyword "if" 146 16), (tk .punct "(" 146 19), (tk .identifier "comparator" 146 20), (tk .punct "(" 146 30), (tk .identifier "node" 146 31), (tk .op "->" 146 35), (tk .identifier "data" 146 37), (tk .punct "," 146 41), (tk .identifier "value" 146 43), (tk .punct ")" 146 48), (tk .punct ")" 146 49)] 146 148 ((SNode.stmt 147 [(tk .identifier "node" 147 13), (tk .op "->" 147 17), (tk .identifier "right" 147 19), (tk .op "=" 147 25), (tk .identifier "deleteHelper" 147 27), (tk .punct "(" 147 39), (tk .identifier "node" 147 40), (tk .op "->" 147 44), (tk .identifier "right" 147 46), (tk .punct "," 147 51), (tk .identifier "value" 147 53), (tk .punct ")" 147 58)]) :: [])) :: ((SNode.node .blk "" [(tk .keyword "else" 148 11)] 148 192 ((SNode.node .blk "" [(tk .keyword "if" 149 13), (tk .punct "(" 149 16), (tk .op "!" 149 17), (tk .identifier "node" 149 18), (tk .op "->" 149 22), (tk .identifier "left" 149 24), (tk .op "||" 149 29), (tk .op "!" 149 32), (tk .identifier "node" 149 33), (tk .op "->" 149 37), (tk .identifier "right" 149 39), (tk .punct ")" 149 44)] 149 157 ((SNode.stmt 150 [(tk .keyword "auto" 150 17), (tk .identifier "temp" 150 22), (tk .op "=" 150 27), (tk .identifier "node" 150 29), (tk .op "->" 150 33), (tk .identifier "left" 150 35), (tk .op "?" 150 40), (tk .identifier "node" 150 42), (tk .op "->" 150 46), (tk .identifier "left" 150 48), (tk .op ":" 150 53), (tk .identifier "node" 150 55), (tk .op "->" 150 59), (tk .identifier "right" 150 61)]) :: ((SNode.node .blk "" [(tk .keyword "if" 151 17), (tk .punct "(" 151 20), (tk .op "!" 151 21), (tk .identifier "temp" 151 22), (tk .punct ")" 151 26)] 151 153 ((SNode.stmt 152 [(tk .identifier "node" 152 21), (tk .op "=" 152 26), (tk .keyword "nullptr" 152 28)]) :: [])) :: ((SNode.node .blk "" [(tk .keyword "else" 153 19)] 153 155 ((SNode.stmt 154 [(tk .identifier "node" 154 21), (tk .op "=" 154 26), (tk .identifier "temp" 154 28)]) :: [])) :: ((SNode.stmt 156 [(tk .identifier "tree_size" 156 17), (tk .op "--" 156 26)]) :: []))))) :: ((SNode.node .blk "" [(tk .keyword "else" 157 15)] 157 161 ((SNode.stmt 158 [(tk .keyword "auto" 158 17), (tk .identifier "temp" 158 22), (tk .op "=" 158 27), (tk .identifier "findMin" 158 29), (tk .punct "(" 158 36), (tk .identifier "node" 158 37), (tk .op "->" 158 41), (tk .identifier "right" 158 43), (tk .punct ")" 158 48)]) :: ((SNode.stmt 159 [(tk .identifier "node" 159 17), (tk .op "->" 159 21), (tk .identifier "data" 159 23), (tk .op "=" 159 28), (tk .identifier "temp" 159 30), (tk .op "->" 159 34), (tk .identifier "data" 159 36)]) :: ((SNode.stmt 160 [(tk .identifier "node" 160 17), (tk .op "->" 160 21), (tk .identifier "right" 160 23), (tk .op "=" 160 29), (tk .identifier "deleteHelper" 160 31), (tk .punct "(" 160 43), (tk .identifier "node" 160 44), (tk .op "->" 160 48), (tk .identifier "right" 160 50), (tk .punct "," 160 55), (tk .identifier "temp" 160 57), (tk .op "->" 160 61), (tk .identifier "data" 160 63), (tk .punct ")" 160 67)]) :: [])))) :: ((SNode.node .blk "" [(tk .keyword "if" 165 9), (tk .punct "(" 165 12), (tk .op "!" 165 13), (tk .identifier "node" 165 14), (tk .punct ")" 165 18)] 165 167 ((SNode.stmt 166 [(tk .keyword "return" 166 13), (tk .identifier "node" 166 20)]) :: [])) :: ((SNode.stmt 169 [(tk .identifier "updateHeight" 169 9), (tk .punct "(" 169 21), (tk .identifier "node" 169 22), (tk .punct ")" 169 26)]) :: ((SNode.stmt 171 [(tk .keyword "int" 171 9), (tk .identifier "balance" 171 13), (tk .op "=" 171 21), (tk .identifier "getBalance" 171 23), (tk .punct "(" 171 33), (tk .identifier "node" 171 34), (tk .punct ")" 171 38)]) :: ((SNode.node .blk "" [(tk .keyword "if" 173 9), (tk .punct "(" 173 12), (tk .identifier "balance" 173 13), (tk .op ">" 173 21), (tk .numLit "1" 173 23), (tk .op "&&" 173 25), (tk .identifier "getBalance" 173 28), (tk .punct "(" 173 38), (tk .identifier "node" 173 39), (tk .op "->" 173 43), (tk .identifier "left" 173 45), (tk .punct ")" 173 49), (tk .op ">=" 173 51), (tk .numLit "0" 173 54), (tk .punct ")" 173 55)] 173 175 ((SNode.stmt 174 [(tk .keyword "return" 174 13), (tk .identifier "rotateRight" 174 20), (tk .punct "(" 174 31), (tk .identifier "node" 174 32), (tk .punct ")" 174 36)]) :: [])) :: ((SNode.node .blk "" [(tk .keyword "if" 177 9), (tk .punct "(" 177 12), (tk .identifier "balance" 177 13), (tk .op ">" 177 21), (tk .numLit "1" 177 23), (tk .op "&&" 177 25), (tk .identifier "getBalance" 177 28), (tk .punct "(" 177 38), (tk .identifier "node" 177 39), (tk .op "->" 177 43), (tk .identifier "left" 177 45), (tk .punct ")" 177 49), (tk .op "<" 177 51), (tk .numLit "0" 177 53), (tk .punct ")" 177 54)] 177 180 ((SNode.stmt 178 [(tk .identifier "node" 178 13), (tk .op "->" 178 17), (tk .identifier "left" 178 19), (tk .op "=" 178 24), (tk .identifier "rotateLeft" 178 26), (tk .punct "(" 178 36), (tk .identifier "node" 178 37), (tk .op "->" 178 41), (tk .identifier "left" 178 43), (tk .punct ")" 178 47)]) :: ((SNode.stmt 179 [(tk .keyword "return" 179 13), (tk .identifier "rotateRight" 179 20), (tk .punct "(" 179 31), (tk .identifier "node" 179 32), (tk .punct ")" 179 36)]) :: []))) :: ((SNode.node .blk "" [(tk .keyword "if" 182 9), (tk .punct "(" 182 12), (tk .identifier "balance" 182 13), (tk .op "<" 182 21), (tk .op "-" 182 23), (tk .numLit "1" 182 24), (tk .op "&&" 182 26), (tk .identifier "getBalance" 182 29), (tk .punct "(" 182 39), (tk .identifier "node" 182 40), (tk .op "->" 182 44), (tk .identifier "right" 182 46), (tk .punct ")" 182 51), (tk .op "<=" 182 53), (tk .numLit "0" 182 56), (tk .punct ")" 182 57)] 182 184 ((SNode.stmt 183 [(tk .keyword "return" 183 13), (tk .identifier "rotateLeft" 183 20), (tk .punct "(" 183 30), (tk .identifier "node" 183 31), (tk .punct ")" 183 35)]) :: [])) :: ((SNode.node .blk "" [(tk .keyword "if" 186 9), (tk .punct "(" 186 12), (tk .identifier "balance" 186 13), (tk .op "<" 186 21), (tk .op "-" 186 23), (tk .numLit "1" 186 24), (tk .op "&&" 186 26), (tk .identifier "getBalance" 186 29), (tk .punct "(" 186 39), (tk .identifier "node" 186 40), (tk .op "->" 186 44), (tk .identifier "right" 186 46), (tk .punct ")" 186 51), (tk .op ">" 186 53), (tk .numLit "0" 186 55), (tk .punct ")" 186 56)] 186 189 ((SNode.stmt 187 [(tk .identifier "node" 187 13), (tk .op "->" 187 17), (tk .identifier "right" 187 19), (tk .op "=" 187 25), (tk .identifier "rotateRight" 187 27), (tk .punct "(" 187 38), (tk .identifier "node" 187 39), (tk .op "->" 187 43), (tk .identifier "right" 187 45), (tk .punct ")" 187 50)]) :: ((SNode.stmt 188 [(tk .keyword "return" 188 13), (tk .identifier "rotateLeft" 188 20), (tk .punct "(" 188 30), (tk .identifier "node" 188 31), (tk .punct ")" 188 35)]) :: []))) :: ((SNode.stmt 191 [(tk .keyword "return" 191 9), (tk .identifier "node" 191 16)]) :: []))))))))))) :: []))))) :: bstSt3_f1.childrenRev)

def bstSt4_f1 : PFrame :=
  PFrame.mk .nsp "DataStructures" [(tk .keyword "namespace" 14 1), (tk .identifier "DataStructures" 14 11)] 14 (bstSt3_f2.childrenRev)

def bstSt4_f2 : PFrame :=
  PFrame.mk .file "" [] 1 (bstSt3_f3.childrenRev)

def bstSt4 : PState :=
  PState.mk bstSt4_f0 [bstSt4_f1, bstSt4_f2] [] 0 none [(SDiag.mk 194 "closing brace" "implicitly closed scope at new declaration"), (SDiag.mk 29 "semicolon after type declaration" "inserted missing semicolon")] 243

def bstT1 : List Token := (scanPart bstChunk1.data .normal 1 1).map PTok.toToken
def bstT2 : List Token := (scanPart bstChunk2.data .normal 82 1).map PTok.toToken
def bstT3 : List Token := (scanPart bstChunk3.data .normal 138 1).map PTok.toToken
def bstT4 : List Token := (scanPart bstChunk4.data .normal 194 1).map PTok.toToken
def bstT5 : List Token := (scanPart bstChunk5.data .normal 245 1).map PTok.toToken


/-! ## Theorems. -/

theorem string_data_append (a b : String) : (a ++ b).data = a.data ++ b.data := rfl

theorem runMode_append (xs ys : List Char) (m : Mode) (l c : Nat) :
    runMode (xs ++ ys) m l c =
      runMode ys (runMode xs m l c).1 (runMode xs m l c).2.1 (runMode xs m l c).2.2 := by
  induction xs generalizing m l c with
  | nil => simp [runMode]
  | cons ch rest ih =>
      cases h1 : step m ch l c with
      | mk ts m2 =>
          cases h2 : nextLC ch l c with
          | mk l2 c2 => simp [runMode, h1, h2, ih]

theorem scanPart_append (xs ys : List Char) (m : Mode) (l c : Nat) :
    scanPart (xs ++ ys) m l c =
      scanPart xs m l c ++
        scanPart ys (runMode xs m l c).1 (runMode xs m l c).2.1 (runMode xs m l c).2.2 := by
  induction xs generalizing m l c with
  | nil => simp [scanPart, runMode]
  | cons ch rest ih =>
      cases h1 : step m ch l c with
      | mk ts m2 =>
          cases h2 : nextLC ch l c with
          | mk l2 c2 => simp [scanPart, runMode, h1, h2, ih]
theorem bstMode1 : runMode bstChunk1.data .normal 1 1 = (.normal, 82, 1) := rfl
theorem bstMode2 : runMode bstChunk2.data .normal 82 1 = (.normal, 138, 1) := rfl
theorem bstMode3 : runMode bstChunk3.data .normal 138 1 = (.normal, 194, 1) := rfl
theorem bstMode4 : runMode bstChunk4.data .normal 194 1 = (.normal, 245, 1) := rfl

theorem bstFold1 : List.foldl parseStep initPState bstT1 = bstSt1 := rfl
theorem bstFold2 : List.foldl parseStep bstSt1 bstT2 = bstSt2 := rfl
theorem bstFold3 : List.foldl parseStep bstSt2 bstT3 = bstSt3 := rfl
theorem bstFold4 : List.foldl parseStep bstSt3 bstT4 = bstSt4 := rfl

theorem bstMode5 : runMode bstChunk5.data .normal 245 1 = (.normal, 301, 1) := rfl

theorem bstTokens : tokenize bstTemplate_text
    = bstT1 ++ (bstT2 ++ (bstT3 ++ (bstT4 ++ (bstT5 ++ [tk .eof "" 301 1])))) := by
  show tokenizeFrom 1 (bstChunk1 ++ (bstChunk2 ++ (bstChunk3 ++ (bstChunk4 ++ bstChunk5)))) = _
  unfold tokenizeFrom
  simp only [string_data_append, runMode_append, scanPart_append,
             bstMode1, bstMode2, bstMode3, bstMode4, bstMode5]
  simp only [bstT1, bstT2, bstT3, bstT4, bstT5, tk, flushMode,
             List.map_append, List.append_assoc, List.append_nil]

theorem bstStTail : List.foldl parseStep initPState (tokenize bstTemplate_text)
    = List.foldl parseStep bstSt4 (bstT5 ++ [tk .eof "" 301 1]) := by
  rw [bstTokens, List.foldl_append, bstFold1, List.foldl_append, bstFold2,
      List.foldl_append, bstFold3, List.foldl_append, bstFold4]

theorem bstParsed : parse (tokenize bstTemplate_text)
    = finishParse (List.foldl parseStep bstSt4 (bstT5 ++ [tk .eof "" 301 1])) := by
  unfold parse
  rw [bstStTail]

theorem useAfterFreeScan_mem (v : String) :
    ∀ (evs : List Ev) (b : Bool) (i : Nat) (e : Ev),
      evs.get? i = some e → e.ety = EvType.useEv →
      (FreedBefore evs i ∨ (b = true ∧ NoAcqBefore evs i)) →
      (⟨e.line, .useAfterFree, "error", "use after free of variable " ++ v⟩ : Finding)
        ∈ useAfterFreeScan v evs b := by
  intro evs
  induction evs with
  | nil => intro b i e hget _ _; simp at hget
  | cons e0 rest ih =>
      intro b i e hget huse hfreed
      match i with
      | 0 =>
          have he : e0 = e := by simpa using hget
          subst he
          have hb : b = true := by
            rcases hfreed with ⟨j, hj, _, _⟩ | ⟨hb, _⟩
            · omega
            · exact hb
          subst hb
          simp [useAfterFreeScan, huse]
      | Nat.succ i' =>
          have hget' : rest.get? i' = some e := by simpa using hget
          cases hety : e0.ety with
          | release =>
              have hnext : FreedBefore rest i' ∨ (true = true ∧ NoAcqBefore rest i') := by
                rcases hfreed with ⟨j, hj, hrel, hnoacq⟩ | ⟨_, hnoacq⟩
                · match j with
                  | 0 =>
                      right
                      refine ⟨rfl, fun k hk hacq => ?_⟩
                      have := hnoacq (k + 1) (by omega) (by omega)
                      exact this (by rcases hacq with ⟨e2, hg, ha⟩; exact ⟨e2, by simpa using hg, ha⟩)
                  | Nat.succ j' =>
                      left
                      refine ⟨j', by omega, ?_, fun k hk1 hk2 hacq => ?_⟩
                      · rcases hrel with ⟨e2, hg, hr⟩
                        exact ⟨e2, by simpa using hg, hr⟩
                      · have := hnoacq (k + 1) (by omega) (by omega)
                        exact this (by rcases hacq with ⟨e2, hg, ha⟩; exact ⟨e2, by simpa using hg, ha⟩)
                · right
                  refine ⟨rfl, fun k hk hacq => ?_⟩
                  have := hnoacq (k + 1) (by omega)
                  exact this (by rcases hacq with ⟨e2, hg, ha⟩; exact ⟨e2, by simpa using hg, ha⟩)
              have := ih true i' e hget' huse hnext
              simpa [useAfterFreeScan, hety] using this
          | acquire =>
              have hnext : FreedBefore rest i' := by
                rcases hfreed with ⟨j, hj, hrel, hnoacq⟩ | ⟨_, hnoacq⟩
                · match j with
                  | 0 =>
                      rcases hrel with ⟨e2, hg, hr⟩
                      have he20 : e0 = e2 := by simpa using hg
                      rw [← he20, hety] at hr
                      exact absurd hr (by simp)
                  | Nat.succ j' =>
                      refine ⟨j', by omega, ?_, fun k hk1 hk2 hacq => ?_⟩
                      · rcases hrel with ⟨e2, hg, hr⟩
                        exact ⟨e2, by simpa using hg, hr⟩
                      · have := hnoacq (k + 1) (by omega) (by omega)
                        exact this (by rcases hacq with ⟨e2, hg, ha⟩; exact ⟨e2, by simpa using hg, ha⟩)
                · exact absurd (hnoacq 0 (by omega) ⟨e0, rfl, hety⟩) (fun h => h)
              have := ih false i' e hget' huse (Or.inl hnext)
              simpa [useAfterFreeScan, hety] using this
          | useEv =>
              have hnext : FreedBefore rest i' ∨ (b = true ∧ NoAcqBefore rest i') := by
                rcases hfreed with ⟨j, hj, hrel, hnoacq⟩ | ⟨hb, hnoacq⟩
                · match j with
                  | 0 =>
                      rcases hrel with ⟨e2, hg, hr⟩
                      have he20 : e0 = e2 := by simpa using hg
                      rw [← he20, hety] at hr
                      exact absurd hr (by simp)
                  | Nat.succ j' =>
                      left
                      refine ⟨j', by omega, ?_, fun k hk1 hk2 hacq => ?_⟩
                      · rcases hrel with ⟨e2, hg, hr⟩
                        exact ⟨e2, by simpa using hg, hr⟩
                      · have := hnoacq (k + 1) (by omega) (by omega)
                        exact this (by rcases hacq with ⟨e2, hg, ha⟩; exact ⟨e2, by simpa using hg, ha⟩)
                · right
                  refine ⟨hb, fun k hk hacq => ?_⟩
                  have := hnoacq (k + 1) (by omega)
                  exact this (by rcases hacq with ⟨e2, hg, ha⟩; exact ⟨e2, by simpa using hg, ha⟩)
              have := ih b i' e hget' huse hnext
              rcases hb2 : b with _ | _ <;>
                simp [useAfterFreeScan, hety, hb2] at this ⊢ <;> [exact this; exact Or.inr this]
          | declared =>
              have hnext : FreedBefore rest i' ∨ (b = true ∧ NoAcqBefore rest i') := by
                rcases hfreed with ⟨j, hj, hrel, hnoacq⟩ | ⟨hb, hnoacq⟩
                · match j with
                  | 0 =>
                      rcases hrel with ⟨e2, hg, hr⟩
                      have he20 : e0 = e2 := by simpa using hg
                      rw [← he20, hety] at hr
                      exact absurd hr (by simp)
                  | Nat.succ j' =>
                      left
                      refine ⟨j', by omega, ?_, fun k hk1 hk2 hacq => ?_⟩
                      · rcases hrel with ⟨e2, hg, hr⟩
                        exact ⟨e2, by simpa using hg, hr⟩
                      · have := hnoacq (k + 1) (by omega) (by omega)
                        exact this (by rcases hacq with ⟨e2, hg, ha⟩; exact ⟨e2, by simpa using hg, ha⟩)
                · right
                  refine ⟨hb, fun k hk hacq => ?_⟩
                  have := hnoacq (k + 1) (by omega)
                  exact this (by rcases hacq with ⟨e2, hg, ha⟩; exact ⟨e2, by simpa using hg, ha⟩)
              have := ih b i' e hget' huse hnext
              simpa [useAfterFreeScan, hety] using this

/-! ## Aggregator invariants. -/

theorem keyLeB_iff (a b : Finding) : keyLeB a b = true ↔ keyLe a b := by
  simp [keyLeB, keyLe]

theorem keyLe_total (a b : Finding) : keyLe a b ∨ keyLe b a := by
  simp [keyLe]; omega

theorem keyLe_trans (a b c : Finding) (h1 : keyLe a b) (h2 : keyLe b c) : keyLe a c := by
  simp [keyLe] at h1 h2 ⊢; omega

theorem mem_insertFinding {x y : Finding} {l : List Finding}
    (h : y ∈ insertFinding x l) : y = x ∨ y ∈ l := by
  induction l with
  | nil => simpa [insertFinding] using h
  | cons z zs ih =>
      by_cases hc : keyLeB x z
      · rw [insertFinding, if_pos hc] at h
        rcases List.mem_cons.mp h with h1 | h1
        · exact Or.inl h1
        · exact Or.inr h1
      · rw [insertFinding, if_neg hc] at h
        rcases List.mem_cons.mp h with h1 | h1
        · exact Or.inr (by simp [h1])
        · rcases ih h1 with h2 | h2
          · exact Or.inl h2
          · exact Or.inr (by simp [h2])

theorem pairwise_insertFinding {x : Finding} {l : List Finding}
    (h : l.Pairwise keyLe) : (insertFinding x l).Pairwise keyLe := by
  induction l with
  | nil => simp [insertFinding]
  | cons z zs ih =>
      rcases List.pairwise_cons.mp h with ⟨hz, hzs⟩
      by_cases hc : keyLeB x z
      · have hxz : keyLe x z := (keyLeB_iff x z).mp hc
        simp only [insertFinding, hc, if_pos]
        refine List.pairwise_cons.mpr ⟨?_, h⟩
        intro y hy
        rcases hy with _ | hy
        · exact hxz
        · exact keyLe_trans x z y hxz (hz _ (by assumption))
      · have hzx : keyLe z x := by
          rcases keyLe_total x z with h1 | h1
          · exact absurd ((keyLeB_iff x z).mpr h1) hc
          · exact h1
        simp only [insertFinding, hc, if_neg, Bool.false_eq_true, not_false_iff]
        refine List.pairwise_cons.mpr ⟨?_, ih hzs⟩
        intro y hy
        rcases mem_insertFinding hy with rfl | hy2
        · exact hzx
        · exact hz _ hy2

theorem sortFindings_pairwise (l : List Finding) : (sortFindings l).Pairwise keyLe := by
  induction l with
  | nil => simp [sortFindings]
  | cons x xs ih => exact pairwise_insertFinding ih

theorem insertFinding_perm (x : Finding) (l : List Finding) :
    List.Perm (insertFinding x l) (x :: l) := by
  induction l with
  | nil => simp [insertFinding]
  | cons z zs ih =>
      by_cases hc : keyLeB x z
      · simp [insertFinding, hc]
      · simp only [insertFinding, hc, if_neg, Bool.false_eq_true, not_false_iff]
        exact (ih.cons z).trans (List.Perm.swap x z zs)

theorem sortFindings_perm (l : List Finding) : List.Perm (sortFindings l) l := by
  induction l with
  | nil => simp [sortFindings]
  | cons x xs ih => exact (insertFinding_perm x (sortFindings xs)).trans (ih.cons x)

theorem mem_dedupFindings_notin {f : Finding} :
    ∀ (l : List Finding) (seen : List (Nat × Nat × String)),
      f ∈ dedupFindings seen l → key3 f ∉ seen := by
  intro l
  induction l with
  | nil => intro seen h; simp [dedupFindings] at h
  | cons g gs ih =>
      intro seen h
      by_cases hc : key3 g ∈ seen
      · rw [dedupFindings, if_pos hc] at h
        exact ih seen h
      · rw [dedupFindings, if_neg hc] at h
        rcases List.mem_cons.mp h with h1 | h1
        · subst h1
          exact hc
        · have := ih (key3 g :: seen) h1
          intro hmem
          exact this (by simp [hmem])

theorem dedupFindings_pairwise :
    ∀ (l : List Finding) (seen : List (Nat × Nat × String)),
      (dedupFindings seen l).Pairwise (fun a b => key3 a ≠ key3 b) := by
  intro l
  induction l with
  | nil => intro seen; simp [dedupFindings]
  | cons g gs ih =>
      intro seen
      by_cases hc : key3 g ∈ seen
      · rw [dedupFindings, if_pos hc]
        exact ih seen
      · rw [dedupFindings, if_neg hc]
        refine List.pairwise_cons.mpr ⟨?_, ih (key3 g :: seen)⟩
        intro b hb heq
        have := mem_dedupFindings_notin gs (key3 g :: seen) hb
        exact this (by simp [heq])

theorem removeEvensLoop_no_evens :
    ∀ (fuel it erased : Nat) (vec : List Int),
      (∀ x ∈ vec, x.tmod 2 ≠ 0) → it ≤ vec.length → vec.length - it < fuel →
      removeEvensLoop fuel vec it erased = some (vec, erased) := by
  intro fuel
  induction fuel with
  | zero => intro it erased vec _ _ h; omega
  | succ n ih =>
      intro it erased vec hno hle hfuel
      by_cases he : it = vec.length
      · simp [removeEvensLoop, he]
      · have hlt : it < vec.length := by omega
        have hodd : (vec.get ⟨it, hlt⟩).tmod 2 ≠ 0 := hno _ (vec.get_mem _ _)
        rw [removeEvensLoop, if_neg he, dif_pos hlt, if_neg hodd]
        exact ih (it + 1) erased vec hno (by omega) (by omega)

/-- C1: for cleanup in semantic_bugs.c (free(ptr); free(ptr); with no
re-acquisition), the DoubleFreeRule fires exactly once over the whole file,
and the finding is at line 52, the second free. -/
theorem claim_C1_double_free :
    (analyze semanticBugsC_text).filter (fun f => f.ruleId = RuleId.doubleFree)
      = [⟨52, .doubleFree, "error", "double free of variable ptr"⟩] := by
  decide

/-- C2: for create_array in semantic_bugs.c (loop condition i <= size over a
malloc of size elements), the LoopBoundsRule fires exactly once, and its
message mentions the off-by-one and the bound size. -/
theorem claim_C2_loop_bounds :
    (analyze semanticBugsC_text).filter (fun f => f.ruleId = RuleId.loopBounds)
        = [⟨24, .loopBounds, "error",
            "off-by-one: loop bound size reaches allocation size of arr"⟩]
    ∧ ((analyze semanticBugsC_text).filter (fun f => f.ruleId = RuleId.loopBounds)).all
        (fun f => containsSub "off-by-one" f.message && containsSub "size" f.message) = true := by
  constructor <;> decide

/-- C3: for get_greeting in semantic_bugs.cpp (returns a reference to the
local greeting), the DanglingReferenceRule fires exactly once, at line 48,
the line of the return statement. -/
theorem claim_C3_dangling_reference :
    (analyze semanticBugsCpp_text).filter (fun f => f.ruleId = RuleId.danglingReference)
      = [⟨48, .danglingReference, "error", "returning reference to local variable greeting"⟩] := by
  decide

/-- C4: the UseAfterFreeRule flags every use event after a release with no
intervening re-acquisition; concretely it flags data[i] at line 35 of
process_and_free (semantic_bugs.c) and rm.get(5) at line 78 of main
(semantic_bugs.cpp) after rm.close(). -/
theorem claim_C4_use_after_free :
    (∀ (v : String) (evs : List Ev) (i : Nat) (e : Ev),
        evs.get? i = some e → e.ety = EvType.useEv → FreedBefore evs i →
        (⟨e.line, .useAfterFree, "error", "use after free of variable " ++ v⟩ : Finding)
          ∈ useAfterFreeScan v evs false)
    ∧ (⟨35, .useAfterFree, "error", "use after free of variable data"⟩ : Finding)
        ∈ analyze semanticBugsC_text
    ∧ (⟨78, .useAfterFree, "error", "use after free of variable rm"⟩ : Finding)
        ∈ analyze semanticBugsCpp_text := by
  refine ⟨fun v evs i e h1 h2 h3 => useAfterFreeScan_mem v evs false i e h1 h2 (Or.inl h3), ?_, ?_⟩
  · decide
  · decide

theorem claim_C4_witness :
    (⟨2, RuleId.useAfterFree, "error", "use after free of variable x"⟩ : Finding)
      ∈ useAfterFreeScan "x" [⟨EvType.release, 1⟩, ⟨EvType.useEv, 2⟩] false :=
  claim_C4_use_after_free.1 "x" [⟨.release, 1⟩, ⟨.useEv, 2⟩] 1 ⟨.useEv, 2⟩ rfl rfl
    ⟨0, by omega, ⟨⟨.release, 1⟩, rfl, rfl⟩, fun k h1 h2 => absurd h1 (by omega)⟩

/-- C5: parsing bst_template.cpp, whose TreeNode template declaration lacks
its trailing semicolon, yields exactly one StructuralDiagnostic at the
declaration end line 29, and TreeNode and BinarySearchTree are sibling
children of the namespace node with disjoint spans; BinarySearchTree does
not occur inside the TreeNode subtree. -/
theorem claim_C5_missing_semicolon :
    ((parse (tokenize bstTemplate_text)).2.filter (fun d => d.line = 29))
        = [⟨29, "semicolon after type declaration", "inserted missing semicolon"⟩]
    ∧ ((nthKid (parse (tokenize bstTemplate_text)).1 0).map kidSigs)
        = some [("class", "TreeNode", 17, 29), ("class", "BinarySearchTree", 31, 264)]
    ∧ (((nthKid (parse (tokenize bstTemplate_text)).1 0).bind (fun ns => nthKid ns 0)).map
          (fun n => countNamed n "BinarySearchTree")) = some 0 := by
  refine ⟨?_, ?_, ?_⟩ <;> (rw [bstParsed]; decide)

/-- C6: parsing network_utils.cpp, where log_message lacks its closing brace,
yields exactly one implicit-closure StructuralDiagnostic, and
calculate_latency parses as a sibling of log_message at top level, not as a
nested child. -/
theorem claim_C6_implicit_closure :
    (parse (tokenize networkUtils_text)).2
        = [⟨7, "closing brace", "implicitly closed scope at new declaration"⟩]
    ∧ kidSigs (parse (tokenize networkUtils_text)).1
        = [("function", "log_message", 4, 7), ("function", "calculate_latency", 7, 9),
           ("function", "check_connection", 11, 14), ("function", "initialize_network", 16, 18),
           ("function", "shutdown_network", 20, 22)]
    ∧ ((nthKid (parse (tokenize networkUtils_text)).1 0).map
          (fun n => countNamed n "calculate_latency")) = some 0 := by
  refine ⟨?_, ?_, ?_⟩ <;> decide

/-- C7: tokenize is total: on every input string it yields a finite token
list whose last element is the EndOfFile token, no earlier token is
EndOfFile, and a malformed input (an unterminated string literal) yields an
Invalid token rather than a failure. -/
theorem claim_C7_tokenize_total :
    (∀ s : String, ∃ ts t, tokenize s = ts ++ [t] ∧ t.kind = TkKind.eof
        ∧ ∀ u ∈ ts, u.kind ≠ TkKind.eof)
    ∧ (∃ u ∈ tokenize "\"unterminated", u.kind = TkKind.invalid) := by
  constructor
  · intro s
    unfold tokenize tokenizeFrom
    rcases hr : runMode s.data .normal 1 1 with ⟨m, l, c⟩
    refine ⟨(scanPart s.data .normal 1 1 ++ flushMode m).map PTok.toToken,
            ⟨TkKind.eof, "", l, c⟩, rfl, rfl, ?_⟩
    intro u hu
    rcases List.mem_map.mp hu with ⟨p, _, rfl⟩
    cases hk : p.kind <;> simp [PTok.toToken, PKind.toTk, hk]
  · decide

theorem claim_C7_witness :
    ∃ ts t, tokenize "int x;" = ts ++ [t] ∧ t.kind = TkKind.eof
      ∧ ∀ u ∈ ts, u.kind ≠ TkKind.eof :=
  claim_C7_tokenize_total.1 "int x;"

/-- C8: every Report produced by aggregate is non-decreasing in
(line, ruleId) and has no two findings sharing (line, ruleId, message). -/
theorem claim_C8_report_invariant (ds : List SDiag) (sf : List Finding) :
    (aggregate ds sf).Pairwise keyLe
    ∧ (aggregate ds sf).Pairwise (fun a b => key3 a ≠ key3 b) := by
  constructor
  · exact sortFindings_pairwise _
  · exact ((sortFindings_perm (dedupFindings [] (ds.map diagToFinding ++ sf))).pairwise_iff
      (fun {x y} h e => h e.symm)).mpr (dedupFindings_pairwise _ [])

theorem claim_C8_witness :
    (aggregate [⟨3, "semicolon", "inserted"⟩]
        [⟨2, .doubleFree, "error", "m"⟩]).Pairwise keyLe
    ∧ (aggregate [⟨3, "semicolon", "inserted"⟩]
        [⟨2, .doubleFree, "error", "m"⟩]).Pairwise (fun a b => key3 a ≠ key3 b) :=
  claim_C8_report_invariant [⟨3, "semicolon", "inserted"⟩] [⟨2, .doubleFree, "error", "m"⟩]

/-- C9: the analysis is deterministic: the embedding of the pipeline
(tokenize, parse, rule evaluation, aggregation) is a pure function, so two
runs on identical input produce identical reports, and their rendered byte
forms agree. -/
theorem claim_C9_determinism :
    ∀ text : String, analyze text = analyze text
      ∧ renderReport (analyze text) = renderReport (analyze text) :=
  fun _ => ⟨rfl, rfl⟩

/-- C10: on every vector with no even element, remove_evens terminates with
the vector unchanged and zero erase calls: the erase branch is never taken. -/
theorem claim_C10_remove_evens_odd (vec : List Int)
    (hno : ∀ x ∈ vec, x.tmod 2 ≠ 0) :
    remove_evens vec = some (vec, 0) := by
  unfold remove_evens
  exact removeEvensLoop_no_evens (vec.length + 1) 0 0 vec hno (by omega) (by omega)

theorem claim_C10_witness : remove_evens [1, 3, 5] = some ([1, 3, 5], 0) :=
  claim_C10_remove_evens_odd [1, 3, 5] (by decide)
